import Mathlib

/-!
# gattlib UART bridge examples: `nordic_uart.c` and `trans_uart.c`

A shallow embedding of the two example programs
`examples/nordic_uart/nordic_uart.c` and `examples/trans_uart/trans_uart.c`.

* Bytes (`char`, `uint8_t`) are natural numbers; `'\r'` is 13, `'\n'` is 10.
* The calls into gattlib, glib and the C library are external. Each call the
  program makes is recorded in a trace, and what the call returns is an input
  of the model.
* `send_thread` and the notification callbacks have the same text in both
  programs (only the diagnostic strings differ), so they are embedded once.
* `main` and `int_handler` differ and live in the namespaces `nordic_uart`
  and `trans_uart`.
-/

namespace Gattlib

/-! ## The chunked write of `send_thread` -/

/-- The glib macro `MIN(a, b)`, that is `((a) < (b)) ? (a) : (b)`. -/
def MIN (a b : Nat) : Nat := if a < b then a else b

/-- One call `gattlib_write_without_response_char_by_handle(m_connection,
handle, input_ptr, length)`: the handle, the `length` argument and the bytes
`input_ptr[0 .. length)` the call is given. -/
structure WriteCall where
  handle : Nat
  length : Nat
  data : List Nat
  deriving DecidableEq, Repr

/-- The loop
`for (total_length = ...; total_length > 0; total_length -= length)` of
`send_thread`, started with `input_ptr` (an index into `input`) and
`total_length`; `n` counts the write calls issued before, and `ret n` is what
the write call number `n` returns. The result is the list of write calls of
the loop and whether the loop left through `return NULL` (a write returned
non-zero). The first argument bounds the number of iterations; `none` means
the bound was reached with `total_length > 0`. -/
def chunk_loop_fuel (ret : Nat → Int) (tx_handle : Nat) (input : List Nat) :
    Nat → Nat → Nat → Nat → Option (List WriteCall × Bool)
  | 0, _, total_length, _ =>
    if total_length > 0 then none else some ([], false)
  | fuel + 1, input_ptr, total_length, n =>
    if total_length > 0 then
      let length := MIN total_length 20
      let call : WriteCall :=
        { handle := tx_handle, length := length,
          data := (input.drop input_ptr).take length }
      if ret n ≠ 0 then
        some ([call], true)
      else
        match chunk_loop_fuel ret tx_handle input fuel (input_ptr + length)
            (total_length - length) (n + 1) with
        | none => none
        | some (calls, failed) => some (call :: calls, failed)
    else some ([], false)

/-- The chunking loop of `send_thread` with `input_ptr = input` and the given
initial `total_length`. Every iteration lowers `total_length` by at least 1,
so `total_length` iterations are enough (`chunk_loop_cases`). -/
def chunk_loop (ret : Nat → Int) (tx_handle : Nat) (input : List Nat)
    (total_length n : Nat) : Option (List WriteCall × Bool) :=
  chunk_loop_fuel ret tx_handle input total_length 0 total_length n

/-- The segment with index `i` of a payload cut at every `limit` bytes. -/
def segment (limit : Nat) (payload : List Nat) (i : Nat) : List Nat :=
  (payload.drop (limit * i)).take limit

/-- The number of segments, `ceil (L / limit)`. -/
def segment_count (limit L : Nat) : Nat := (L + (limit - 1)) / limit

/-- The segments of a payload cut at every `limit` bytes, in order. -/
def segments (limit : Nat) (payload : List Nat) : List (List Nat) :=
  (List.range (segment_count limit payload.length)).map (segment limit payload)

/-- The write call with index `i` of the chunking loop started with
`input_ptr` and `total_length`. -/
def call_at (tx_handle : Nat) (input : List Nat) (input_ptr total_length i : Nat) :
    WriteCall :=
  { handle := tx_handle, length := MIN (total_length - 20 * i) 20,
    data := (input.drop (input_ptr + 20 * i)).take (MIN (total_length - 20 * i) 20) }

/-! ## The input pump `send_thread` -/

/-- The reading loop of the C library call `fgets`: takes at most `k`
characters from the stream, stopping after a newline (10) or at the end of the
stream. The result is the characters taken and the rest of the stream. -/
def fgets_chars : Nat → List Nat → List Nat × List Nat
  | 0, stdin => ([], stdin)
  | _ + 1, [] => ([], [])
  | k + 1, c :: stdin =>
    if c = 10 then ([c], stdin)
    else (c :: (fgets_chars k stdin).1, (fgets_chars k stdin).2)

/-- What `fgets(input, size, stdin)` leaves behind: whether it returned
non-NULL, the array and the stream. -/
structure FgetsResult where
  nonnull : Bool
  input : List Nat
  stdin : List Nat
  deriving DecidableEq, Repr

/-- The C library call `fgets(input, size, stdin)`: at most `size - 1`
characters are stored at the start of the array, followed by a 0 byte; the
bytes of the array behind them keep their value. At the end of the stream
with no character read it returns NULL and the array is unchanged. -/
def fgets (input : List Nat) (size : Nat) (stdin : List Nat) : FgetsResult :=
  let r := fgets_chars (size - 1) stdin
  if r.1 = [] then { nonnull := false, input := input, stdin := stdin }
  else
    { nonnull := true
      input := r.1 ++ [0] ++ input.drop (r.1.length + 1)
      stdin := r.2 }

/-- The C library call `strlen` on the array `input`: the number of bytes
before the first 0 byte; `none` when the array holds no 0 byte (the scan
leaves the array, which C leaves undefined). -/
def strlen : List Nat → Option Nat
  | [] => none
  | c :: s => if c = 0 then some 0 else (strlen s).map (· + 1)

/-- The string held in an array: the bytes before the first 0 byte. -/
def c_string : List Nat → List Nat
  | [] => []
  | c :: s => if c = 0 then [] else c :: c_string s

/-- The state of `send_thread`: the array `char input[256]`, the unread part
of standard input, the write calls issued so far and the number of `fgets`
calls issued so far. -/
structure PumpState where
  input : List Nat
  stdin : List Nat
  writes : List WriteCall
  reads : Nat
  deriving DecidableEq, Repr

/-- How a run of `send_thread` stands after a bounded number of iterations of
`while (1)`. -/
inductive Outcome
  /-- A write returned non-zero and the function left through `return NULL`. -/
  | returned (s : PumpState)
  /-- The iterations allowed are used up and the loop is still going. -/
  | running (s : PumpState)
  /-- The array holds no 0 byte when `strlen` is called. -/
  | undefined (s : PumpState)
  deriving DecidableEq, Repr

/-- The function `send_thread` (the same in both programs), `while (1)` run
for at most the given number of iterations. `ret k` is what the write call
number `k` returns, `tx_handle` the global of that name. The value `fgets`
returns is not looked at by the code. The chunking loop always ends
(`chunk_loop_cases`), so its `none` branch below is never taken. -/
def send_thread (ret : Nat → Int) (tx_handle : Nat) : Nat → PumpState → Outcome
  | 0, s => Outcome.running s
  | fuel + 1, s =>
    let r := fgets s.input 256 s.stdin
    let s1 : PumpState :=
      { input := r.input, stdin := r.stdin, writes := s.writes, reads := s.reads + 1 }
    match strlen r.input with
    | none => Outcome.undefined s1
    | some len =>
      match chunk_loop ret tx_handle r.input (len + 1) s.writes.length with
      | none => Outcome.undefined s1
      | some (calls, true) => Outcome.returned { s1 with writes := s.writes ++ calls }
      | some (calls, false) =>
        send_thread ret tx_handle fuel { s1 with writes := s.writes ++ calls }

/-- The state of `send_thread` right after the call of `fgets` of an
iteration that starts in `s`. -/
def after_fgets (s : PumpState) : PumpState :=
  { input := (fgets s.input 256 s.stdin).input
    stdin := (fgets s.input 256 s.stdin).stdin
    writes := s.writes
    reads := s.reads + 1 }

/-- The state an outcome carries. -/
def Outcome.state : Outcome → PumpState
  | Outcome.returned s => s
  | Outcome.running s => s
  | Outcome.undefined s => s

/-- A state in which `send_thread` starts: the array `input` filled with 0
bytes (one of the contents the uninitialised array can have), nothing written
or read yet, and the given bytes waiting on standard input. -/
def pump_start (stdin : List Nat) : PumpState :=
  { input := List.replicate 256 0, stdin := stdin, writes := [], reads := 0 }

/-- A line of 45 bytes: 44 times the letter `a` and the line terminator. -/
def line45 : List Nat := List.replicate 44 97 ++ [10]

/-! ## The notification callbacks -/

/-- The loop `for (i = 0; i < data_length; i++)` of the callbacks over the
bytes `data[i]` still to come; the second argument is what has been written
to standard output so far. `putchar` and `printf("%c", ...)` each add one
byte. The counter `i` is an `int`; payloads are taken to be shorter than
`INT_MAX` bytes. -/
def notification_loop : List Nat → List Nat → List Nat
  | [], stdout => stdout
  | d :: data, stdout =>
    let stdout1 := if d = 13 then stdout ++ [10] else stdout
    notification_loop data (stdout1 ++ [d])

/-- The callback `notification_cb` of `nordic_uart.c`: the bytes it writes to
standard output for the payload `data` (of `data_length` bytes). -/
def notification_cb (data : List Nat) : List Nat := notification_loop data []

/-- The callback `tx_notification_cb` of `trans_uart.c`. -/
def tx_notification_cb (data : List Nat) : List Nat := notification_loop data []

/-- The callback `nx_notification_cb` of `trans_uart.c`. -/
def nx_notification_cb (data : List Nat) : List Nat := notification_loop data []

/-! ## Startup and shutdown: what both programs share -/

/-- The fields of `gattlib_characteristic_t` the programs read. -/
structure gattlib_characteristic_t where
  uuid : Nat
  value_handle : Nat
  deriving DecidableEq, Repr

/-- The three UUID string constants of the programs
(`..._CHARACTERISTIC_TX_UUID`, `..._RX_UUID`, `..._NX_UUID`). -/
inductive UuidName
  | TX
  | RX
  | NX
  deriving DecidableEq, Repr

/-- The callbacks handed to `gattlib_register_notification`. -/
inductive Handler
  | notification_cb
  | tx_notification_cb
  | nx_notification_cb
  deriving DecidableEq, Repr

/-- The external calls of the programs, as recorded in the trace of `main`
and `int_handler`. The diagnostics printed with `fprintf(stderr, ...)` are not
recorded. A UUID argument is recorded by its value. The write call is issued
by `send_thread` only, which `pthread_create` starts. -/
inductive Call
  | usage
  | gattlib_connect
  | gattlib_string_to_uuid (name : UuidName)
  | gattlib_discover_char
  | free
  | gattlib_register_notification (cb : Handler)
  | gattlib_notification_start (uuid : Nat)
  | gattlib_notification_stop (uuid : Nat)
  | gattlib_write_without_response_char_by_handle (w : WriteCall)
  | signal
  | g_main_loop_new
  | pthread_create
  | g_main_loop_run
  | g_main_loop_quit
  | gattlib_disconnect
  | exit (code : Int)
  deriving DecidableEq, Repr

/-- Whether a call is `gattlib_notification_stop`. -/
def Call.is_stop : Call → Bool
  | Call.gattlib_notification_stop _ => true
  | _ => false

/-- Whether a call is `gattlib_notification_start`. -/
def Call.is_start : Call → Bool
  | Call.gattlib_notification_start _ => true
  | _ => false

/-- Whether a call is `gattlib_write_without_response_char_by_handle`. -/
def Call.is_write : Call → Bool
  | Call.gattlib_write_without_response_char_by_handle _ => true
  | _ => false

/-- Whether a call is `gattlib_register_notification`. -/
def Call.is_register : Call → Bool
  | Call.gattlib_register_notification _ => true
  | _ => false

/-- The entries of a discovered list whose UUID is `uuid`
(`gattlib_uuid_cmp` returns 0 on them). -/
def matching (characteristics : List gattlib_characteristic_t) (uuid : Nat) :
    List gattlib_characteristic_t :=
  characteristics.filter (fun c => c.uuid = uuid)

/-- The matching entry of a discovered list for `uuid`: the entry whose UUID
is `uuid`, the last such entry when the list has several, `none` when it has
none. -/
def matching_entry (characteristics : List gattlib_characteristic_t) (uuid : Nat) :
    Option gattlib_characteristic_t :=
  (matching characteristics uuid).getLast?

/-- The handle the scan of `main` resolves `uuid` to, starting from the value
`start` of the handle variable: the `value_handle` of the matching entry,
`start` when the list has no entry with that UUID. -/
def resolved (characteristics : List gattlib_characteristic_t) (uuid start : Nat) : Nat :=
  match matching_entry characteristics uuid with
  | some e => e.value_handle
  | none => start

/-- A required UUID is unresolved in a discovered list: the list has no entry
with that UUID, or its matching entry has handle value 0. -/
def unresolved (characteristics : List gattlib_characteristic_t) (uuid : Nat) : Prop :=
  matching_entry characteristics uuid = none ∨
    ∃ e, matching_entry characteristics uuid = some e ∧ e.value_handle = 0

namespace nordic_uart

/-- The UUID the string `NUS_CHARACTERISTIC_TX_UUID`,
"6e400002-b5a3-f393-e0a9-e50e24dcca9e", denotes. -/
def NUS_CHARACTERISTIC_TX_UUID : Nat := 0x6e400002b5a3f393e0a9e50e24dcca9e

/-- The UUID the string `NUS_CHARACTERISTIC_RX_UUID`,
"6e400003-b5a3-f393-e0a9-e50e24dcca9e", denotes. -/
def NUS_CHARACTERISTIC_RX_UUID : Nat := 0x6e400003b5a3f393e0a9e50e24dcca9e

/-- The globals of `nordic_uart.c`. `m_connection` is kept as whether the
pointer is non-NULL. Statics start at 0. -/
structure Globals where
  m_connection : Bool
  tx_handle : Nat
  rx_handle : Nat
  nus_characteristic_tx_uuid : Nat
  nus_characteristic_rx_uuid : Nat
  notify_started : Int
  deriving DecidableEq, Repr

/-- The globals at program start. -/
def Globals.init : Globals :=
  { m_connection := false, tx_handle := 0, rx_handle := 0,
    nus_characteristic_tx_uuid := 0, nus_characteristic_rx_uuid := 0,
    notify_started := 0 }

/-- What the outside gives `main` of `nordic_uart.c`: `argc` and the results
of the external calls. -/
structure Env where
  argc : Int
  /-- Whether `gattlib_connect` returns a non-NULL connection. -/
  connect : Bool
  /-- Return value of `gattlib_string_to_uuid` for the TX string. -/
  tx_uuid_ret : Int
  /-- Return value of `gattlib_string_to_uuid` for the RX string. -/
  rx_uuid_ret : Int
  /-- Return value of `gattlib_discover_char` and the list it hands back. -/
  discover_ret : Int
  characteristics : List gattlib_characteristic_t
  /-- Return value of `gattlib_notification_start`. -/
  notification_start_ret : Int
  deriving DecidableEq, Repr

/-- Where `main` stands: its return value (`none` when control has reached
`g_main_loop_run`, with `send_thread` started), the globals and the external
calls made so far, in order. -/
structure Result where
  ret : Option Int
  globals : Globals
  trace : List Call
  deriving DecidableEq, Repr

/-- The loop `for (i = 0; i < characteristic_count; i++)` of `main` over the
entries still to come, on the pair `(tx_handle, rx_handle)`. -/
def scan (tx_uuid rx_uuid : Nat) : List gattlib_characteristic_t → Nat × Nat → Nat × Nat
  | [], handles => handles
  | c :: cs, (tx_handle, rx_handle) =>
    if c.uuid = tx_uuid then scan tx_uuid rx_uuid cs (c.value_handle, rx_handle)
    else if c.uuid = rx_uuid then scan tx_uuid rx_uuid cs (tx_handle, c.value_handle)
    else scan tx_uuid rx_uuid cs (tx_handle, rx_handle)

/-- The function `main` of `nordic_uart.c`, up to the call of
`g_main_loop_run`. A call of `gattlib_string_to_uuid` that returns 0 has
stored the UUID its string denotes. -/
def main (env : Env) : Result :=
  let g := Globals.init
  if env.argc ≠ 2 then
    { ret := some 1, globals := g, trace := [Call.usage] }
  else
  let g := { g with m_connection := env.connect }
  let t := [Call.gattlib_connect]
  if g.m_connection = false then
    { ret := some 1, globals := g, trace := t }
  else
  let t := t ++ [Call.gattlib_string_to_uuid UuidName.TX]
  if env.tx_uuid_ret ≠ 0 then
    { ret := some 1, globals := g, trace := t }
  else
  let g := { g with nus_characteristic_tx_uuid := NUS_CHARACTERISTIC_TX_UUID }
  let t := t ++ [Call.gattlib_string_to_uuid UuidName.RX]
  if env.rx_uuid_ret ≠ 0 then
    { ret := some 1, globals := g, trace := t }
  else
  let g := { g with nus_characteristic_rx_uuid := NUS_CHARACTERISTIC_RX_UUID }
  let t := t ++ [Call.gattlib_discover_char]
  if env.discover_ret ≠ 0 then
    { ret := some 1, globals := g, trace := t }
  else
  let handles := scan g.nus_characteristic_tx_uuid g.nus_characteristic_rx_uuid
    env.characteristics (g.tx_handle, g.rx_handle)
  let g := { g with tx_handle := handles.1, rx_handle := handles.2 }
  if g.tx_handle = 0 then
    { ret := some 1, globals := g, trace := t }
  else if g.rx_handle = 0 then
    { ret := some 1, globals := g, trace := t }
  else
  let t := t ++ [Call.free]
  let t := t ++ [Call.gattlib_register_notification Handler.notification_cb]
  let t := t ++ [Call.gattlib_notification_start g.nus_characteristic_rx_uuid]
  let g := { g with notify_started := 1 }
  let t := t ++ [Call.signal, Call.g_main_loop_new, Call.pthread_create,
    Call.g_main_loop_run]
  { ret := none, globals := g, trace := t }

/-- The process of `nordic_uart`: running in the main loop with its globals,
or ended by a call of `exit`, with the globals as they were at that call and
the exit status. -/
inductive Process
  | running (g : Globals)
  | exited (g : Globals) (code : Int)
  deriving DecidableEq, Repr

/-- The function `int_handler` of `nordic_uart.c`: the external calls it
makes, in order, and the process it leaves. Its last statement is `exit(0)`,
which does not return: the process has ended. -/
def int_handler (g : Globals) : Process × List Call :=
  let r : Globals × List Call :=
    if g.notify_started ≠ 0 then
      ({ g with notify_started := 0 },
        [Call.gattlib_notification_stop g.nus_characteristic_rx_uuid])
    else (g, [])
  (Process.exited r.1 0,
    r.2 ++ [Call.g_main_loop_quit, Call.gattlib_disconnect, Call.exit 0])

/-- A startup in which every external call succeeds and discovery hands back
the TX characteristic with handle 11 and the RX characteristic with handle
12. -/
def env_ok : Env :=
  { argc := 2, connect := true, tx_uuid_ret := 0, rx_uuid_ret := 0, discover_ret := 0,
    characteristics :=
      [{ uuid := NUS_CHARACTERISTIC_TX_UUID, value_handle := 11 },
       { uuid := NUS_CHARACTERISTIC_RX_UUID, value_handle := 12 }],
    notification_start_ret := 0 }

/-- A startup in which discovery hands back only the RX characteristic: the
list has no entry for the TX UUID. -/
def env_no_tx : Env :=
  { env_ok with
    characteristics := [{ uuid := NUS_CHARACTERISTIC_RX_UUID, value_handle := 12 }] }

end nordic_uart

namespace trans_uart

/-- The UUID the string `UART_CHARACTERISTIC_TX_UUID`,
"49535343-1e4d-4bd9-ba61-23c647249616", denotes. -/
def UART_CHARACTERISTIC_TX_UUID : Nat := 0x495353431e4d4bd9ba6123c647249616

/-- The UUID the string `UART_CHARACTERISTIC_RX_UUID`,
"49535343-8841-43f4-a8d4-ecbe34729bb3", denotes. -/
def UART_CHARACTERISTIC_RX_UUID : Nat := 0x49535343884143f4a8d4ecbe34729bb3

/-- The UUID the string `UART_CHARACTERISTIC_NX_UUID`,
"49535343-4c8a-39b3-2f49-511cff073b7e", denotes. -/
def UART_CHARACTERISTIC_NX_UUID : Nat := 0x495353434c8a39b32f49511cff073b7e

/-- The globals of `trans_uart.c`. `m_connection` is kept as whether the
pointer is non-NULL. Statics start at 0. -/
structure Globals where
  m_connection : Bool
  tx_handle : Nat
  rx_handle : Nat
  nx_handle : Nat
  uart_characteristic_tx_uuid : Nat
  uart_characteristic_rx_uuid : Nat
  uart_characteristic_nx_uuid : Nat
  tx_notify_started : Int
  nx_notify_started : Int
  deriving DecidableEq, Repr

/-- The globals at program start. -/
def Globals.init : Globals :=
  { m_connection := false, tx_handle := 0, rx_handle := 0, nx_handle := 0,
    uart_characteristic_tx_uuid := 0, uart_characteristic_rx_uuid := 0,
    uart_characteristic_nx_uuid := 0, tx_notify_started := 0,
    nx_notify_started := 0 }

/-- What the outside gives `main` of `trans_uart.c`: `argc` and the results
of the external calls. -/
structure Env where
  argc : Int
  /-- Whether `gattlib_connect` returns a non-NULL connection. -/
  connect : Bool
  /-- Return values of the three `gattlib_string_to_uuid` calls. -/
  tx_uuid_ret : Int
  rx_uuid_ret : Int
  nx_uuid_ret : Int
  /-- Return value of `gattlib_discover_char` and the list it hands back. -/
  discover_ret : Int
  characteristics : List gattlib_characteristic_t
  /-- Return values of the two `gattlib_notification_start` calls. -/
  tx_notification_start_ret : Int
  nx_notification_start_ret : Int
  deriving DecidableEq, Repr

/-- Where `main` stands: its return value (`none` when control has reached
`g_main_loop_run`, with `send_thread` started), the globals and the external
calls made so far, in order. -/
structure Result where
  ret : Option Int
  globals : Globals
  trace : List Call
  deriving DecidableEq, Repr

/-- The loop `for (i = 0; i < characteristic_count; i++)` of `main` over the
entries still to come, on `(tx_handle, rx_handle, nx_handle)`. -/
def scan (tx_uuid rx_uuid nx_uuid : Nat) :
    List gattlib_characteristic_t → Nat × Nat × Nat → Nat × Nat × Nat
  | [], handles => handles
  | c :: cs, (tx_handle, rx_handle, nx_handle) =>
    if c.uuid = tx_uuid then
      scan tx_uuid rx_uuid nx_uuid cs (c.value_handle, rx_handle, nx_handle)
    else if c.uuid = rx_uuid then
      scan tx_uuid rx_uuid nx_uuid cs (tx_handle, c.value_handle, nx_handle)
    else if c.uuid = nx_uuid then
      scan tx_uuid rx_uuid nx_uuid cs (tx_handle, rx_handle, c.value_handle)
    else scan tx_uuid rx_uuid nx_uuid cs (tx_handle, rx_handle, nx_handle)

/-- The function `main` of `trans_uart.c`, up to the call of
`g_main_loop_run`. A call of `gattlib_string_to_uuid` that returns 0 has
stored the UUID its string denotes. -/
def main (env : Env) : Result :=
  let g := Globals.init
  if env.argc ≠ 2 then
    { ret := some 1, globals := g, trace := [Call.usage] }
  else
  let g := { g with m_connection := env.connect }
  let t := [Call.gattlib_connect]
  if g.m_connection = false then
    { ret := some 1, globals := g, trace := t }
  else
  let t := t ++ [Call.gattlib_string_to_uuid UuidName.TX]
  if env.tx_uuid_ret ≠ 0 then
    { ret := some 1, globals := g, trace := t }
  else
  let g := { g with uart_characteristic_tx_uuid := UART_CHARACTERISTIC_TX_UUID }
  let t := t ++ [Call.gattlib_string_to_uuid UuidName.RX]
  if env.rx_uuid_ret ≠ 0 then
    { ret := some 1, globals := g, trace := t }
  else
  let g := { g with uart_characteristic_rx_uuid := UART_CHARACTERISTIC_RX_UUID }
  let t := t ++ [Call.gattlib_string_to_uuid UuidName.NX]
  if env.nx_uuid_ret ≠ 0 then
    { ret := some 1, globals := g, trace := t }
  else
  let g := { g with uart_characteristic_nx_uuid := UART_CHARACTERISTIC_NX_UUID }
  let t := t ++ [Call.gattlib_discover_char]
  if env.discover_ret ≠ 0 then
    { ret := some 1, globals := g, trace := t }
  else
  let handles := scan g.uart_characteristic_tx_uuid g.uart_characteristic_rx_uuid
    g.uart_characteristic_nx_uuid env.characteristics
    (g.tx_handle, g.rx_handle, g.nx_handle)
  let g := { g with tx_handle := handles.1, rx_handle := handles.2.1,
                    nx_handle := handles.2.2 }
  if g.tx_handle = 0 then
    { ret := some 1, globals := g, trace := t }
  else if g.rx_handle = 0 then
    { ret := some 1, globals := g, trace := t }
  else if g.nx_handle = 0 then
    { ret := some 1, globals := g, trace := t }
  else
  let t := t ++ [Call.free]
  let t := t ++ [Call.gattlib_register_notification Handler.tx_notification_cb]
  let t := t ++ [Call.gattlib_notification_start g.uart_characteristic_tx_uuid]
  let g := if env.tx_notification_start_ret ≠ 0 then g
    else { g with tx_notify_started := 1 }
  let t := t ++ [Call.gattlib_register_notification Handler.nx_notification_cb]
  let t := t ++ [Call.gattlib_notification_start g.uart_characteristic_nx_uuid]
  let g := if env.nx_notification_start_ret ≠ 0 then g
    else { g with nx_notify_started := 1 }
  let t := t ++ [Call.signal, Call.g_main_loop_new, Call.pthread_create,
    Call.g_main_loop_run]
  { ret := none, globals := g, trace := t }

/-- The process of `trans_uart`: running in the main loop with its globals,
or ended by a call of `exit`, with the globals as they were at that call and
the exit status. -/
inductive Process
  | running (g : Globals)
  | exited (g : Globals) (code : Int)
  deriving DecidableEq, Repr

/-- The function `int_handler` of `trans_uart.c`: the external calls it
makes, in order, and the process it leaves. Its last statement is `exit(0)`,
which does not return: the process has ended. -/
def int_handler (g : Globals) : Process × List Call :=
  let r1 : Globals × List Call :=
    if g.tx_notify_started ≠ 0 then
      ({ g with tx_notify_started := 0 },
        [Call.gattlib_notification_stop g.uart_characteristic_tx_uuid])
    else (g, [])
  let r2 : Globals × List Call :=
    if r1.1.nx_notify_started ≠ 0 then
      ({ r1.1 with nx_notify_started := 0 },
        r1.2 ++ [Call.gattlib_notification_stop r1.1.uart_characteristic_nx_uuid])
    else r1
  (Process.exited r2.1 0,
    r2.2 ++ [Call.g_main_loop_quit, Call.gattlib_disconnect, Call.exit 0])

/-- A startup in which every external call succeeds and discovery hands back
the TX, RX and NX characteristics with the handles 11, 12 and 13. -/
def env_ok : Env :=
  { argc := 2, connect := true, tx_uuid_ret := 0, rx_uuid_ret := 0, nx_uuid_ret := 0,
    discover_ret := 0,
    characteristics :=
      [{ uuid := UART_CHARACTERISTIC_TX_UUID, value_handle := 11 },
       { uuid := UART_CHARACTERISTIC_RX_UUID, value_handle := 12 },
       { uuid := UART_CHARACTERISTIC_NX_UUID, value_handle := 13 }],
    tx_notification_start_ret := 0, nx_notification_start_ret := 0 }

/-- A startup in which discovery hands back the TX and RX characteristics and
the NX characteristic with handle value 0. -/
def env_nx_zero : Env :=
  { env_ok with
    characteristics :=
      [{ uuid := UART_CHARACTERISTIC_TX_UUID, value_handle := 11 },
       { uuid := UART_CHARACTERISTIC_RX_UUID, value_handle := 12 },
       { uuid := UART_CHARACTERISTIC_NX_UUID, value_handle := 0 }] }

end trans_uart

set_option maxRecDepth 100000

/-! ## Lemmas on the chunking loop -/

theorem MIN_eq_min (a b : Nat) : MIN a b = min a b := by
  unfold MIN
  split <;> omega

theorem segment_count_zero : segment_count 20 0 = 0 := by
  simp [segment_count]

theorem segment_count_small (t : Nat) (h0 : 0 < t) (h : t ≤ 20) :
    segment_count 20 t = 1 := by
  unfold segment_count
  omega

theorem segment_count_step (t : Nat) (h : 20 < t) :
    segment_count 20 t = segment_count 20 (t - 20) + 1 := by
  unfold segment_count
  omega

theorem segment_count_pos (t : Nat) (h : 0 < t) : 0 < segment_count 20 t := by
  unfold segment_count
  omega

theorem call_at_succ (h : Nat) (input : List Nat) (p t i : Nat) :
    call_at h input p t (i + 1) = call_at h input (p + 20) (t - 20) i := by
  unfold call_at
  have e1 : t - 20 * (i + 1) = t - 20 - 20 * i := by omega
  have e2 : p + 20 * (i + 1) = p + 20 + 20 * i := by omega
  rw [e1, e2]

theorem chunk_loop_fuel_zero (ret : Nat → Int) (h : Nat) (input : List Nat)
    (fuel p n : Nat) :
    chunk_loop_fuel ret h input fuel p 0 n = some ([], false) := by
  cases fuel <;> simp [chunk_loop_fuel]

/-- When no write fails, the loop issues the calls `call_at 0`, `call_at 1`,
... up to the segment count and leaves through its condition. -/
theorem chunk_loop_fuel_ok (ret : Nat → Int) (h : Nat) (input : List Nat) :
    ∀ (fuel p t n : Nat), t ≤ fuel →
      (∀ j, j < segment_count 20 t → ret (n + j) = 0) →
      chunk_loop_fuel ret h input fuel p t n =
        some ((List.range (segment_count 20 t)).map (call_at h input p t), false) := by
  intro fuel
  induction fuel with
  | zero =>
    intro p t n ht _
    have : t = 0 := by omega
    subst this
    simp [chunk_loop_fuel, segment_count_zero]
  | succ fuel ih =>
    intro p t n ht hret
    by_cases h0 : 0 < t
    · have hr0 : ret n = 0 := by
        have := hret 0 (segment_count_pos t h0)
        simpa using this
      by_cases h20 : t ≤ 20
      · have hmin : MIN t 20 = t := by rw [MIN_eq_min]; omega
        have hr1 : List.range 1 = [0] := rfl
        simp [chunk_loop_fuel, h0, hr0, hmin, chunk_loop_fuel_zero,
          segment_count_small t h0 h20, call_at, hr1]
      · have h20 : 20 < t := by omega
        have hmin : MIN t 20 = 20 := by rw [MIN_eq_min]; omega
        have hrec := ih (p + 20) (t - 20) (n + 1) (by omega) (by
          intro j hj
          have := hret (j + 1) (by rw [segment_count_step t h20]; omega)
          rw [← this]; congr 1; omega)
        simp only [chunk_loop_fuel, h0, hr0, hmin, hrec, if_true, ne_eq,
          not_true_eq_false, if_false]
        rw [segment_count_step t h20, List.range_succ_eq_map, List.map_cons,
          List.map_map]
        have hfun : call_at h input p t ∘ Nat.succ =
            call_at h input (p + 20) (t - 20) := by
          funext i
          exact call_at_succ h input p t i
        rw [hfun]
        simp [call_at, hmin]
    · have : t = 0 := by omega
      subst this
      simp [chunk_loop_fuel_zero, segment_count_zero]

/-- When the write with index `k` of the loop is the first to fail, the loop
issues the calls `call_at 0` ... `call_at k` and leaves through `return`. -/
theorem chunk_loop_fuel_fail (ret : Nat → Int) (h : Nat) (input : List Nat) :
    ∀ (fuel p t n k : Nat), t ≤ fuel → k < segment_count 20 t →
      (∀ j, j < k → ret (n + j) = 0) → ret (n + k) ≠ 0 →
      chunk_loop_fuel ret h input fuel p t n =
        some ((List.range (k + 1)).map (call_at h input p t), true) := by
  intro fuel
  induction fuel with
  | zero =>
    intro p t n k ht hk _ _
    have : t = 0 := by omega
    subst this
    simp [segment_count_zero] at hk
  | succ fuel ih =>
    intro p t n k ht hk hok hfail
    have h0 : 0 < t := by
      rcases Nat.eq_zero_or_pos t with h | h
      · subst h; simp [segment_count_zero] at hk
      · exact h
    cases k with
    | zero =>
      have hf : ret n ≠ 0 := by simpa using hfail
      have hr1 : List.range 1 = [0] := rfl
      simp [chunk_loop_fuel, h0, hf, call_at, hr1]
    | succ k =>
      have hr0 : ret n = 0 := by simpa using hok 0 (by omega)
      have h20 : 20 < t := by
        by_contra hc
        rw [segment_count_small t h0 (by omega)] at hk
        omega
      have hmin : MIN t 20 = 20 := by rw [MIN_eq_min]; omega
      have hrec := ih (p + 20) (t - 20) (n + 1) k (by omega)
        (by rw [segment_count_step t h20] at hk; omega)
        (by
          intro j hj
          have := hok (j + 1) (by omega)
          rw [← this]; congr 1; omega)
        (by
          have e : n + 1 + k = n + (k + 1) := by omega
          rw [e]; exact hfail)
      simp only [chunk_loop_fuel, h0, hr0, hmin, hrec, if_true, ne_eq,
        not_true_eq_false, if_false]
      rw [List.range_succ_eq_map (k + 1), List.map_cons, List.map_map]
      have hfun : call_at h input p t ∘ Nat.succ =
          call_at h input (p + 20) (t - 20) := by
        funext i
        exact call_at_succ h input p t i
      rw [hfun]
      simp [call_at, hmin]

theorem chunk_loop_ok (ret : Nat → Int) (h : Nat) (input : List Nat) (L n : Nat)
    (hok : ∀ j, j < segment_count 20 L → ret (n + j) = 0) :
    chunk_loop ret h input L n =
      some ((List.range (segment_count 20 L)).map (call_at h input 0 L), false) :=
  chunk_loop_fuel_ok ret h input L 0 L n (Nat.le_refl L) hok

theorem chunk_loop_fail (ret : Nat → Int) (h : Nat) (input : List Nat) (L n k : Nat)
    (hk : k < segment_count 20 L) (hok : ∀ j, j < k → ret (n + j) = 0)
    (hfail : ret (n + k) ≠ 0) :
    chunk_loop ret h input L n =
      some ((List.range (k + 1)).map (call_at h input 0 L), true) :=
  chunk_loop_fuel_fail ret h input L 0 L n k (Nat.le_refl L) hk hok hfail

/-- The loop always ends: either no write fails and it runs through, or it
returns at the first write that fails. -/
theorem chunk_loop_cases (ret : Nat → Int) (h : Nat) (input : List Nat) (L n : Nat) :
    ((∀ j, j < segment_count 20 L → ret (n + j) = 0) ∧
      chunk_loop ret h input L n =
        some ((List.range (segment_count 20 L)).map (call_at h input 0 L), false)) ∨
    (∃ k, k < segment_count 20 L ∧ (∀ j, j < k → ret (n + j) = 0) ∧ ret (n + k) ≠ 0 ∧
      chunk_loop ret h input L n =
        some ((List.range (k + 1)).map (call_at h input 0 L), true)) := by
  by_cases hall : ∀ j, j < segment_count 20 L → ret (n + j) = 0
  · exact Or.inl ⟨hall, chunk_loop_ok ret h input L n hall⟩
  · right
    have hex : ∃ k, k < segment_count 20 L ∧ ret (n + k) ≠ 0 := by
      by_contra hc
      apply hall
      intro j hj
      by_contra hne
      exact hc ⟨j, hj, hne⟩
    classical
    refine ⟨Nat.find hex, (Nat.find_spec hex).1, ?_, (Nat.find_spec hex).2, ?_⟩
    · intro j hj
      by_contra hne
      exact Nat.find_min hex hj ⟨by have := (Nat.find_spec hex).1; omega, hne⟩
    · apply chunk_loop_fail ret h input L n _ (Nat.find_spec hex).1 _ (Nat.find_spec hex).2
      intro j hj
      by_contra hne
      exact Nat.find_min hex hj ⟨by have := (Nat.find_spec hex).1; omega, hne⟩

theorem call_at_length (h : Nat) (input : List Nat) (p t i : Nat) :
    (call_at h input p t i).length = min (t - 20 * i) 20 := by
  simp [call_at, MIN_eq_min]

theorem call_at_data (h : Nat) (input : List Nat) (L i : Nat) :
    (call_at h input 0 L i).data = segment 20 (input.take L) i := by
  simp only [call_at, segment, MIN_eq_min, Nat.zero_add, List.drop_take, List.take_take]
  rw [Nat.min_comm]

theorem segments_flatten_take (limit : Nat) (l : List Nat) (k : Nat) :
    ((List.range k).map (segment limit l)).flatten = l.take (limit * k) := by
  induction k with
  | zero => simp
  | succ k ih =>
    rw [List.range_succ, List.map_append, List.flatten_append, ih, Nat.mul_succ,
      List.take_add]
    simp [segment]

theorem segments_flatten (l : List Nat) : (segments 20 l).flatten = l := by
  unfold segments
  rw [segments_flatten_take]
  apply List.take_of_length_le
  unfold segment_count
  omega

/-! ## The chunked write: sizes and content (C1, C2) -/

theorem ceil_div_twenty (L : Nat) : ⌈(L : ℚ) / 20⌉₊ = (L + 19) / 20 := by
  rcases Nat.eq_zero_or_pos L with h0 | h0
  · subst h0
    simp
  · have hk : (L + 19) / 20 ≠ 0 := by omega
    rw [Nat.ceil_eq_iff hk]
    have h1 : 20 * ((L + 19) / 20 - 1) < L := by omega
    have h2 : L ≤ 20 * ((L + 19) / 20) := by omega
    have h1q : (20 : ℚ) * (((L + 19) / 20 - 1 : ℕ) : ℚ) < (L : ℚ) := by exact_mod_cast h1
    have h2q : (L : ℚ) ≤ (20 : ℚ) * (((L + 19) / 20 : ℕ) : ℚ) := by exact_mod_cast h2
    constructor
    · rw [lt_div_iff₀ (by norm_num : (0 : ℚ) < 20)]
      linarith
    · rw [div_le_iff₀ (by norm_num : (0 : ℚ) < 20)]
      linarith


/-- C1: for every payload length `L` handed to the chunking loop of
`send_thread` (`total_length = L`, limit 20), when no write fails the loop
issues exactly `ceil (L / 20)` writes (none when `L = 0`); every write but
the last has length exactly 20, and the last has length `L mod 20`, or 20 when
`L mod 20 = 0` and `L > 0`. -/
theorem C1_chunk_sizes (ret : Nat → Int) (tx_handle : Nat) (input : List Nat)
    (L n : Nat) (hok : ∀ j, j < (L + 19) / 20 → ret (n + j) = 0) :
    ∃ calls, chunk_loop ret tx_handle input L n = some (calls, false) ∧
      calls.length = (L + 19) / 20 ∧
      calls.length = ⌈(L : ℚ) / 20⌉₊ ∧
      (L = 0 → calls = []) ∧
      (∀ i, i + 1 < calls.length → (calls.map WriteCall.length)[i]? = some 20) ∧
      (0 < L → (calls.map WriteCall.length).getLast? =
        some (if L % 20 = 0 then 20 else L % 20)) := by
  have hcnt : segment_count 20 L = (L + 19) / 20 := rfl
  refine ⟨_, chunk_loop_ok ret tx_handle input L n (by rw [hcnt]; exact hok), ?_, ?_, ?_, ?_, ?_⟩
  · simp [hcnt]
  · simp only [List.length_map, List.length_range, hcnt]
    exact (ceil_div_twenty L).symm
  · intro h0
    subst h0
    simp [segment_count]
  · intro i hi
    simp only [List.length_map, List.length_range, hcnt] at hi
    have hi2 : i < segment_count 20 L := by rw [hcnt]; omega
    simp [List.getElem?_map, List.getElem?_range, hi2, call_at_length]
    omega
  · intro h0
    rw [List.getLast?_eq_getElem?]
    have hpos : 0 < segment_count 20 L := segment_count_pos L h0
    have hi2 : segment_count 20 L - 1 < segment_count 20 L := by omega
    simp [List.getElem?_map, List.getElem?_range, hi2, call_at_length]
    rw [hcnt]
    split <;> omega


/-- Witness of C1: a payload of 45 bytes, no write failing. -/
theorem C1_chunk_sizes_witness :
    (∀ j, j < (45 + 19) / 20 → (fun _ : Nat => (0 : Int)) (0 + j) = 0) ∧
    ∃ calls, chunk_loop (fun _ => 0) 7 (List.range 45) 45 0 = some (calls, false) ∧
      calls.length = (45 + 19) / 20 ∧
      calls.length = ⌈((45 : Nat) : ℚ) / 20⌉₊ ∧
      (45 = 0 → calls = []) ∧
      (∀ i, i + 1 < calls.length → (calls.map WriteCall.length)[i]? = some 20) ∧
      (0 < 45 → (calls.map WriteCall.length).getLast? =
        some (if 45 % 20 = 0 then 20 else 45 % 20)) :=
  ⟨fun _ _ => rfl, C1_chunk_sizes (fun _ => 0) 7 (List.range 45) 45 0 (fun _ _ => rfl)⟩

/-- C2: for every payload (the first `L` bytes of the array), when every
write succeeds, the segments written by the chunking loop of `send_thread`
are, in order, the payload cut at every 20 bytes, each write carries as many
bytes as its length argument says, and the segments concatenated in the order
written give the payload back exactly. -/
theorem C2_chunks_concat (ret : Nat → Int) (tx_handle : Nat) (input : List Nat)
    (L n : Nat) (hL : L ≤ input.length)
    (hok : ∀ j, j < (L + 19) / 20 → ret (n + j) = 0) :
    ∃ calls, chunk_loop ret tx_handle input L n = some (calls, false) ∧
      calls.map WriteCall.data = segments 20 (input.take L) ∧
      (∀ c ∈ calls, c.data.length = c.length ∧ c.handle = tx_handle) ∧
      (calls.map WriteCall.data).flatten = input.take L := by
  have hcnt : segment_count 20 L = (L + 19) / 20 := rfl
  have hdata : ((List.range (segment_count 20 L)).map (call_at tx_handle input 0 L)).map
      WriteCall.data = segments 20 (input.take L) := by
    unfold segments
    rw [List.map_map, List.length_take, Nat.min_eq_left hL]
    apply List.map_congr_left
    intro i _
    exact call_at_data tx_handle input L i
  refine ⟨_, chunk_loop_ok ret tx_handle input L n (by rw [hcnt]; exact hok), hdata, ?_, ?_⟩
  · intro c hc
    rw [List.mem_map] at hc
    obtain ⟨i, hi, rfl⟩ := hc
    rw [List.mem_range, hcnt] at hi
    simp only [call_at, MIN_eq_min, List.length_take, List.length_drop, and_true]
    omega
  · rw [hdata]
    exact segments_flatten _

/-- Witness of C2: the payload `0, 1, ..., 44`, no write failing. -/
theorem C2_chunks_concat_witness :
    45 ≤ (List.range 45).length ∧
    ∃ calls, chunk_loop (fun _ => 0) 7 (List.range 45) 45 0 = some (calls, false) ∧
      calls.map WriteCall.data = segments 20 ((List.range 45).take 45) ∧
      (∀ c ∈ calls, c.data.length = c.length ∧ c.handle = 7) ∧
      (calls.map WriteCall.data).flatten = (List.range 45).take 45 :=
  ⟨by decide, C2_chunks_concat (fun _ => 0) 7 (List.range 45) 45 0 (by decide)
    (fun _ _ => rfl)⟩

/-! ## The notification callbacks (C3) -/

theorem notification_loop_eq (data stdout : List Nat) :
    notification_loop data stdout =
      stdout ++ data.flatMap (fun b => if b = 13 then [10, 13] else [b]) := by
  induction data generalizing stdout with
  | nil => simp [notification_loop]
  | cons d data ih =>
    simp only [notification_loop, List.flatMap_cons]
    rw [ih]
    by_cases hd : d = 13
    · subst hd
      simp
    · simp [hd]

/-- C3, the claim as stated fails: for the payload `h,i,0x0D,0x0A,b,y,e` the
callback does not write the payload with 0x0D replaced by 0x0A
(`h,i,0x0A,0x0A,b,y,e`); it writes `h,i,0x0A,0x0D,0x0A,b,y,e`, the 0x0D byte
still there behind the added 0x0A. -/
theorem C3_counterexample :
    notification_cb [104, 105, 13, 10, 98, 121, 101] ≠
      [104, 105, 13, 10, 98, 121, 101].map (fun b => if b = 13 then 10 else b) ∧
    notification_cb [104, 105, 13, 10, 98, 121, 101] ≠ [104, 105, 10, 10, 98, 121, 101] ∧
    notification_cb [104, 105, 13, 10, 98, 121, 101] =
      [104, 105, 10, 13, 10, 98, 121, 101] := by
  decide

/-- C3 as amended: for every notification payload, the bytes each of the
callbacks `notification_cb`, `tx_notification_cb`, `nx_notification_cb` writes
to standard output are the payload, in the original order, with one
line-break byte 0x0A put in front of each 0x0D byte; every byte of the
payload, the 0x0D bytes too, is written unchanged. -/
theorem C3_callback_output (data : List Nat) :
    notification_cb data = data.flatMap (fun b => if b = 13 then [10, 13] else [b]) ∧
    tx_notification_cb data = data.flatMap (fun b => if b = 13 then [10, 13] else [b]) ∧
    nx_notification_cb data = data.flatMap (fun b => if b = 13 then [10, 13] else [b]) ∧
    (notification_cb data).filter (· ≠ 10) = data.filter (· ≠ 10) := by
  refine ⟨?_, ?_, ?_, ?_⟩
  · simp [notification_cb, notification_loop_eq]
  · simp [tx_notification_cb, notification_loop_eq]
  · simp [nx_notification_cb, notification_loop_eq]
  · simp only [notification_cb, notification_loop_eq, List.nil_append]
    induction data with
    | nil => simp
    | cons d data ih =>
      simp only [List.flatMap_cons, List.filter_append, ih]
      by_cases hd : d = 13
      · subst hd
        simp [List.filter_cons]
      · by_cases h10 : d = 10
        · subst h10
          simp [List.filter_cons]
        · simp [hd, h10, List.filter_cons]

/-! ## The input pump (C4, C5, C6) -/

theorem c_string_append_zero (cs rest : List Nat) :
    c_string (cs ++ [0] ++ rest) = c_string cs := by
  induction cs with
  | nil => simp [c_string]
  | cons c cs ih =>
    by_cases hc : c = 0
    · subst hc
      simp [c_string]
    · have e : c :: cs ++ [0] ++ rest = c :: (cs ++ [0] ++ rest) := by simp
      rw [e]
      simp only [c_string, hc, if_false, ih]

theorem c_string_of_not_mem (cs : List Nat) (h : 0 ∉ cs) : c_string cs = cs := by
  induction cs with
  | nil => rfl
  | cons c cs ih =>
    have hc : c ≠ 0 := fun e => h (by simp [e])
    have hcs : 0 ∉ cs := fun e => h (by simp [e])
    simp only [c_string, hc, if_false, ih hcs]

theorem strlen_append_zero (cs rest : List Nat) :
    strlen (cs ++ [0] ++ rest) = some (c_string cs).length := by
  induction cs with
  | nil => simp [strlen, c_string]
  | cons c cs ih =>
    have e : c :: cs ++ [0] ++ rest = c :: (cs ++ [0] ++ rest) := by simp
    rw [e]
    by_cases hc : c = 0
    · subst hc
      simp [strlen, c_string]
    · simp only [strlen, hc, if_false, ih, c_string]
      simp

theorem strlen_take (input : List Nat) (len : Nat) (h : strlen input = some len) :
    input.take (len + 1) = c_string input ++ [0] ∧ len + 1 ≤ input.length ∧
      (c_string input).length = len := by
  induction input generalizing len with
  | nil => simp [strlen] at h
  | cons c cs ih =>
    by_cases hc : c = 0
    · subst hc
      simp [strlen] at h
      subst h
      simp [c_string]
    · simp only [strlen, hc, if_false, Option.map_eq_some'] at h
      obtain ⟨l, hl, rfl⟩ := h
      obtain ⟨h1, h2, h3⟩ := ih l hl
      simp [c_string, hc, h1, h2, h3]

/-- One iteration of `while (1)` in which no write fails. -/
theorem send_thread_step_ok (ret : Nat → Int) (h : Nat) (fuel : Nat) (s : PumpState)
    (len : Nat) (hlen : strlen (after_fgets s).input = some len)
    (hok : ∀ j, j < segment_count 20 (len + 1) → ret (s.writes.length + j) = 0) :
    send_thread ret h (fuel + 1) s =
      send_thread ret h fuel
        { after_fgets s with
          writes := s.writes ++ (List.range (segment_count 20 (len + 1))).map
            (call_at h (after_fgets s).input 0 (len + 1)) } := by
  have hl : strlen (fgets s.input 256 s.stdin).input = some len := hlen
  simp only [send_thread, hl]
  rw [chunk_loop_ok ret h _ (len + 1) s.writes.length hok]
  rfl

/-- One iteration of `while (1)` in which the write with index `k` is the
first to fail. -/
theorem send_thread_step_fail (ret : Nat → Int) (h : Nat) (fuel : Nat) (s : PumpState)
    (len k : Nat) (hlen : strlen (after_fgets s).input = some len)
    (hk : k < segment_count 20 (len + 1))
    (hok : ∀ j, j < k → ret (s.writes.length + j) = 0)
    (hfail : ret (s.writes.length + k) ≠ 0) :
    send_thread ret h (fuel + 1) s =
      Outcome.returned
        { after_fgets s with
          writes := s.writes ++ (List.range (k + 1)).map
            (call_at h (after_fgets s).input 0 (len + 1)) } := by
  have hl : strlen (fgets s.input 256 s.stdin).input = some len := hlen
  simp only [send_thread, hl]
  rw [chunk_loop_fail ret h _ (len + 1) s.writes.length k hk hok hfail]
  rfl

/-- Running `m + f` iterations is running `m` and then, if the loop is still
going, `f` more. -/
theorem send_thread_add (ret : Nat → Int) (h : Nat) (f : Nat) :
    ∀ (m : Nat) (s0 : PumpState),
      send_thread ret h (m + f) s0 =
        match send_thread ret h m s0 with
        | Outcome.running s => send_thread ret h f s
        | o => o := by
  intro m
  induction m with
  | zero =>
    intro s0
    simp [send_thread]
  | succ m ih =>
    intro s0
    rw [Nat.succ_add]
    simp only [send_thread]
    cases hs : strlen (fgets s0.input 256 s0.stdin).input with
    | none => simp
    | some len =>
      simp only
      cases hc : chunk_loop ret h (fgets s0.input 256 s0.stdin).input (len + 1)
          s0.writes.length with
      | none => simp
      | some r =>
        obtain ⟨calls, failed⟩ := r
        cases failed with
        | true => simp
        | false =>
          simp only
          exact ih _

/-- The bytes of the first `m` calls of an iteration are the first `m`
segments of the payload. -/
theorem call_at_data_take (h : Nat) (input : List Nat) (len m : Nat)
    (hlen : strlen input = some len) (hm : m ≤ segment_count 20 (len + 1)) :
    ((List.range m).map (call_at h input 0 (len + 1))).map WriteCall.data =
      (segments 20 (c_string input ++ [0])).take m := by
  obtain ⟨h1, h2, h3⟩ := strlen_take input len hlen
  unfold segments
  rw [List.map_map, ← List.map_take, List.take_range]
  have hlen2 : (c_string input ++ [0]).length = len + 1 := by simp [h3]
  rw [hlen2, Nat.min_eq_left hm]
  apply List.map_congr_left
  intro i _
  rw [← h1]
  exact call_at_data h input (len + 1) i


theorem call_at_length_map (h : Nat) (input : List Nat) (L m : Nat) :
    ((List.range m).map (call_at h input 0 L)).map WriteCall.length =
      (List.range m).map (fun i => min (L - 20 * i) 20) := by
  rw [List.map_map]
  apply List.map_congr_left
  intro i _
  exact call_at_length h input 0 L i

/-- The lengths of all the writes of one payload add up to its length. -/
theorem sum_call_lengths (L : Nat) :
    ((List.range (segment_count 20 L)).map (fun i => min (L - 20 * i) 20)).sum = L := by
  have hfl := congrArg List.length (segments_flatten (List.replicate L 0))
  rw [List.length_flatten, List.length_replicate] at hfl
  unfold segments at hfl
  rw [List.length_replicate, List.map_map] at hfl
  have hmap : (List.range (segment_count 20 L)).map (fun i => min (L - 20 * i) 20) =
      (List.range (segment_count 20 L)).map
        (List.length ∘ segment 20 (List.replicate L 0)) := by
    apply List.map_congr_left
    intro i _
    simp only [Function.comp, segment, List.length_take, List.length_drop,
      List.length_replicate]
    omega
  rw [hmap]
  exact hfl

theorem fgets_chars_append : ∀ (k : Nat) (stdin : List Nat),
    (fgets_chars k stdin).1 ++ (fgets_chars k stdin).2 = stdin := by
  intro k
  induction k with
  | zero => intro stdin; simp [fgets_chars]
  | succ k ih =>
    intro stdin
    cases stdin with
    | nil => simp [fgets_chars]
    | cons c stdin =>
      by_cases hc : c = 10
      · simp [fgets_chars, hc]
      · simp [fgets_chars, hc, ih stdin]

theorem fgets_chars_length : ∀ (k : Nat) (stdin : List Nat),
    (fgets_chars k stdin).1.length ≤ k := by
  intro k
  induction k with
  | zero => intro stdin; simp [fgets_chars]
  | succ k ih =>
    intro stdin
    cases stdin with
    | nil => simp [fgets_chars]
    | cons c stdin =>
      by_cases hc : c = 10
      · simp [fgets_chars, hc]
      · simp [fgets_chars, hc, ih stdin]

/-- A call of `fgets` that returns non-NULL has stored the characters read,
at least one, and a 0 byte behind them. -/
theorem fgets_nonnull (input stdin : List Nat)
    (h : (fgets input 256 stdin).nonnull = true) :
    (fgets_chars 255 stdin).1 ≠ [] ∧
    (fgets input 256 stdin).input =
      (fgets_chars 255 stdin).1 ++ [0] ++ input.drop ((fgets_chars 255 stdin).1.length + 1) ∧
    (fgets input 256 stdin).stdin = (fgets_chars 255 stdin).2 := by
  unfold fgets at h ⊢
  simp only [show 256 - 1 = 255 from rfl] at h ⊢
  by_cases hcs : (fgets_chars 255 stdin).1 = []
  · simp [hcs] at h
  · simp [hcs]

/-- A call of `fgets` at the end of the stream returns NULL and leaves the
array and the stream as they are. -/
theorem fgets_eof (input : List Nat) :
    fgets input 256 [] = { nonnull := false, input := input, stdin := [] } := by
  simp [fgets, fgets_chars]


/-- C5: in `send_thread`, whenever the pump has come through `m` iterations
and is at the start of the next one in state `s`, and the `k`-th segment
write of that iteration's payload is the first to fail, then exactly `k`
write calls are issued for that payload, carrying its first `k` segments in
order, and the function returns: with any number of further iterations allowed
the run ends in the state right behind that `k`-th write, with one `fgets`
call for the payload and none after it, and no write after it. -/
theorem C5_first_failed_write (ret : Nat → Int) (tx_handle : Nat) (m : Nat)
    (s0 s : PumpState) (len k : Nat)
    (hrun : send_thread ret tx_handle m s0 = Outcome.running s)
    (hlen : strlen (after_fgets s).input = some len)
    (hk1 : 1 ≤ k) (hk : k ≤ segment_count 20 (len + 1))
    (hok : ∀ j, j + 1 < k → ret (s.writes.length + j) = 0)
    (hfail : ret (s.writes.length + (k - 1)) ≠ 0) :
    ∃ calls, calls.length = k ∧
      calls.map WriteCall.data =
        (segments 20 (c_string (after_fgets s).input ++ [0])).take k ∧
      ∀ fuel, send_thread ret tx_handle (m + (fuel + 1)) s0 =
        Outcome.returned
          { input := (after_fgets s).input, stdin := (after_fgets s).stdin,
            writes := s.writes ++ calls, reads := s.reads + 1 } := by
  obtain ⟨k, rfl⟩ : ∃ k0, k = k0 + 1 := ⟨k - 1, by omega⟩
  refine ⟨(List.range (k + 1)).map (call_at tx_handle (after_fgets s).input 0 (len + 1)),
    by simp, call_at_data_take tx_handle _ len (k + 1) hlen hk, ?_⟩
  intro fuel
  rw [send_thread_add, hrun]
  simp only
  rw [send_thread_step_fail ret tx_handle fuel s len k hlen (by omega)
    (fun j hj => hok j (by omega)) (by simpa using hfail)]
  rfl

/-- Witness of C5: a line of 45 bytes (payload of 46 bytes, three segments)
whose second write fails. -/
theorem C5_first_failed_write_witness :
    send_thread (fun j => if j = 1 then 1 else 0) 7 0 (pump_start line45) =
      Outcome.running (pump_start line45) ∧
    strlen (after_fgets (pump_start line45)).input = some 45 ∧
    1 ≤ 2 ∧ 2 ≤ segment_count 20 (45 + 1) ∧
    ∃ calls, calls.length = 2 ∧
      calls.map WriteCall.data =
        (segments 20 (c_string (after_fgets (pump_start line45)).input ++ [0])).take 2 ∧
      ∀ fuel, send_thread (fun j => if j = 1 then 1 else 0) 7 (0 + (fuel + 1))
          (pump_start line45) =
        Outcome.returned
          { input := (after_fgets (pump_start line45)).input,
            stdin := (after_fgets (pump_start line45)).stdin,
            writes := (pump_start line45).writes ++ calls,
            reads := (pump_start line45).reads + 1 } :=
  ⟨rfl, by decide, by decide, by decide,
    C5_first_failed_write (fun j => if j = 1 then 1 else 0) 7 0 (pump_start line45)
      (pump_start line45) 45 2 rfl (by decide) (by decide) (by decide)
      (by
        intro j hj
        have : j = 0 := by omega
        subst this
        decide)
      (by decide)⟩


/-- C4, the claim as stated fails: for a line of 45 bytes (terminator
included) read by `send_thread`, with no write failing, the writes have the
sizes 20, 20, 6, not 20, 20, 5: 46 bytes are written for the 45 bytes read,
the bytes read and one 0 byte behind them. -/
theorem C4_counterexample :
    (fgets (pump_start line45).input 256 (pump_start line45).stdin).nonnull = true ∧
    line45.length = 45 ∧
    (send_thread (fun _ => 0) 7 1 (pump_start line45)).state.stdin = [] ∧
    (send_thread (fun _ => 0) 7 1 (pump_start line45)).state.writes.map WriteCall.length =
      [20, 20, 6] ∧
    (send_thread (fun _ => 0) 7 1 (pump_start line45)).state.writes.map WriteCall.length ≠
      [20, 20, 5] ∧
    ((send_thread (fun _ => 0) 7 1 (pump_start line45)).state.writes.map
      WriteCall.data).flatten = line45 ++ [0] ∧
    ((send_thread (fun _ => 0) 7 1 (pump_start line45)).state.writes.map
      WriteCall.data).flatten ≠ line45 := by
  decide

/-- C4 as amended: for every line successfully read by `send_thread`, with
no write failing, the bytes passed to the chunked write are the string in the
array with its terminating 0 byte: for a line without a 0 byte these are
exactly the bytes read, line terminator included, followed by one 0 byte, so
the number of bytes written is the number of bytes read plus one; in
particular a 45-byte line (terminator included) yields writes of sizes 20,
20, 6 in that order. -/
theorem C4_line_written (ret : Nat → Int) (tx_handle : Nat) (s : PumpState)
    (hread : (fgets s.input 256 s.stdin).nonnull = true)
    (hok : ∀ j, ret (s.writes.length + j) = 0) :
    ∃ line calls,
      line = (fgets_chars 255 s.stdin).1 ∧
      line ≠ [] ∧ s.stdin = line ++ (after_fgets s).stdin ∧
      send_thread ret tx_handle 1 s =
        Outcome.running
          { input := (after_fgets s).input, stdin := (after_fgets s).stdin,
            writes := s.writes ++ calls, reads := s.reads + 1 } ∧
      calls.map WriteCall.data = segments 20 (c_string line ++ [0]) ∧
      (calls.map WriteCall.data).flatten = c_string line ++ [0] ∧
      (0 ∉ line →
        (calls.map WriteCall.data).flatten = line ++ [0] ∧
        (calls.map WriteCall.length).sum = line.length + 1 ∧
        (line.length = 45 → calls.map WriteCall.length = [20, 20, 6])) := by
  obtain ⟨hne, hinput, hstdin⟩ := fgets_nonnull s.input s.stdin hread
  have hin : (after_fgets s).input = (fgets_chars 255 s.stdin).1 ++ [0] ++
      s.input.drop ((fgets_chars 255 s.stdin).1.length + 1) := hinput
  have hst : (after_fgets s).stdin = (fgets_chars 255 s.stdin).2 := hstdin
  have hlen : strlen (after_fgets s).input =
      some (c_string (fgets_chars 255 s.stdin).1).length := by
    rw [hin]; exact strlen_append_zero _ _
  have hcs : c_string (after_fgets s).input = c_string (fgets_chars 255 s.stdin).1 := by
    rw [hin]; exact c_string_append_zero _ _
  have hdata := call_at_data_take tx_handle (after_fgets s).input _ _ hlen (Nat.le_refl _)
  have hseglen : (segments 20 (c_string (after_fgets s).input ++ [0])).length =
      segment_count 20 ((c_string (fgets_chars 255 s.stdin).1).length + 1) := by
    simp [segments, hcs]
  rw [List.take_of_length_le (by rw [hseglen]), hcs] at hdata
  refine ⟨(fgets_chars 255 s.stdin).1, _, rfl, hne, ?_, ?_, hdata, ?_, ?_⟩
  · rw [hst]; exact (fgets_chars_append 255 s.stdin).symm
  · rw [send_thread_step_ok ret tx_handle 0 s _ hlen (fun j _ => hok j)]
    rfl
  · rw [hdata]; exact segments_flatten _
  · intro h0
    have hc := c_string_of_not_mem _ h0
    refine ⟨?_, ?_, ?_⟩
    · rw [hdata, hc]; exact segments_flatten _
    · rw [call_at_length_map, hc]; exact sum_call_lengths _
    · intro h45
      rw [call_at_length_map, hc, h45]
      decide

/-- Witness of C4 as amended: the line of 45 bytes read at thread start. -/
theorem C4_line_written_witness :
    (fgets (pump_start line45).input 256 (pump_start line45).stdin).nonnull = true ∧
    ∃ line calls,
      line = (fgets_chars 255 (pump_start line45).stdin).1 ∧
      line ≠ [] ∧ (pump_start line45).stdin = line ++ (after_fgets (pump_start line45)).stdin ∧
      send_thread (fun _ => 0) 7 1 (pump_start line45) =
        Outcome.running
          { input := (after_fgets (pump_start line45)).input,
            stdin := (after_fgets (pump_start line45)).stdin,
            writes := (pump_start line45).writes ++ calls,
            reads := (pump_start line45).reads + 1 } ∧
      calls.map WriteCall.data = segments 20 (c_string line ++ [0]) ∧
      (calls.map WriteCall.data).flatten = c_string line ++ [0] ∧
      (0 ∉ line →
        (calls.map WriteCall.data).flatten = line ++ [0] ∧
        (calls.map WriteCall.length).sum = line.length + 1 ∧
        (line.length = 45 → calls.map WriteCall.length = [20, 20, 6])) :=
  ⟨by decide, C4_line_written (fun _ => 0) 7 (pump_start line45) (by decide)
    (fun _ => rfl)⟩


/-- C6, the claim as stated fails: with the line `h,i,\n` on standard input
and then end-of-input, and no write failing, the second and the third call of
`fgets` report end-of-input, yet each of these iterations writes the four
bytes `h,i,\n,0` again and after three iterations the loop is still going. -/
theorem C6_counterexample :
    (after_fgets (pump_start [104, 105, 10])).stdin = [] ∧
    (fgets (after_fgets (pump_start [104, 105, 10])).input 256 []).nonnull = false ∧
    send_thread (fun _ => 0) 7 3 (pump_start [104, 105, 10]) =
      Outcome.running
        { input := [104, 105, 10, 0] ++ List.replicate 252 0
          stdin := []
          writes := [{ handle := 7, length := 4, data := [104, 105, 10, 0] },
                     { handle := 7, length := 4, data := [104, 105, 10, 0] },
                     { handle := 7, length := 4, data := [104, 105, 10, 0] }]
          reads := 3 } := by
  decide

/-- C6 as amended: when the line read in `send_thread` reports end-of-input,
the array keeps the bytes it held and the iteration issues the chunked write
of the string already in the array, its 0 byte included; as long as no write
fails the pump loop does not terminate: after any number of iterations it is
still going, has called `fgets` once per iteration and has written that same
payload once per iteration. -/
theorem C6_end_of_input (ret : Nat → Int) (tx_handle : Nat) :
    ∀ (fuel : Nat) (s : PumpState) (len : Nat), s.stdin = [] →
      strlen s.input = some len → (∀ j, ret (s.writes.length + j) = 0) →
      (fgets s.input 256 s.stdin).nonnull = false ∧
      ∃ s', send_thread ret tx_handle fuel s = Outcome.running s' ∧
        s'.input = s.input ∧ s'.stdin = [] ∧ s'.reads = s.reads + fuel ∧
        s'.writes.length = s.writes.length + fuel * segment_count 20 (len + 1) ∧
        (s'.writes.map WriteCall.data).flatten =
          (s.writes.map WriteCall.data).flatten ++
            (List.replicate fuel (c_string s.input ++ [0])).flatten := by
  intro fuel
  induction fuel with
  | zero =>
    intro s len heof _ _
    refine ⟨by rw [heof, fgets_eof], s, rfl, rfl, heof, rfl, by simp, by simp⟩
  | succ fuel ih =>
    intro s len heof hlen hok
    have haf : after_fgets s =
        { input := s.input, stdin := [], writes := s.writes, reads := s.reads + 1 } := by
      simp [after_fgets, heof, fgets_eof]
    have hlen1 : strlen (after_fgets s).input = some len := by rw [haf]; exact hlen
    have hstep := send_thread_step_ok ret tx_handle fuel s len hlen1 (fun j _ => hok j)
    have hdata := call_at_data_take tx_handle (after_fgets s).input len _ hlen1 (Nat.le_refl _)
    have hseglen : (segments 20 (c_string (after_fgets s).input ++ [0])).length =
        segment_count 20 (len + 1) := by
      have h3 := (strlen_take _ _ hlen1).2.2
      simp [segments, h3]
    rw [List.take_of_length_le (by rw [hseglen])] at hdata
    rw [haf] at hstep hdata
    obtain ⟨_, s', hs', h1, h2, h3, h4, h5⟩ := ih
      { input := s.input, stdin := [],
        writes := s.writes ++ (List.range (segment_count 20 (len + 1))).map
          (call_at tx_handle s.input 0 (len + 1)),
        reads := s.reads + 1 } len rfl hlen
      (by
        intro j
        simp only [List.length_append, List.length_map, List.length_range]
        rw [Nat.add_assoc]
        exact hok _)
    refine ⟨by rw [heof, fgets_eof], s', ?_, h1, h2, ?_, ?_, ?_⟩
    · rw [hstep]; exact hs'
    · rw [h3]; simp only; omega
    · rw [h4]
      simp only [List.length_append, List.length_map, List.length_range]
      rw [Nat.succ_mul]; omega
    · rw [h5]
      simp only [List.map_append, List.flatten_append, hdata, segments_flatten,
        List.replicate_succ, List.flatten_cons, List.append_assoc]

/-- Witness of C6 as amended: the state after the line `h,i,\n` was sent,
standard input at its end, five more iterations. -/
theorem C6_end_of_input_witness :
    (after_fgets (pump_start [104, 105, 10])).stdin = [] ∧
    strlen (after_fgets (pump_start [104, 105, 10])).input = some 3 ∧
    (fgets (after_fgets (pump_start [104, 105, 10])).input 256
      (after_fgets (pump_start [104, 105, 10])).stdin).nonnull = false ∧
    ∃ s', send_thread (fun _ => 0) 7 5 (after_fgets (pump_start [104, 105, 10])) =
        Outcome.running s' ∧
      s'.input = (after_fgets (pump_start [104, 105, 10])).input ∧ s'.stdin = [] ∧
      s'.reads = (after_fgets (pump_start [104, 105, 10])).reads + 5 ∧
      s'.writes.length = (after_fgets (pump_start [104, 105, 10])).writes.length +
        5 * segment_count 20 (3 + 1) ∧
      (s'.writes.map WriteCall.data).flatten =
        ((after_fgets (pump_start [104, 105, 10])).writes.map WriteCall.data).flatten ++
          (List.replicate 5
            (c_string (after_fgets (pump_start [104, 105, 10])).input ++ [0])).flatten :=
  ⟨by decide, by decide,
    C6_end_of_input (fun _ => 0) 7 5 (after_fgets (pump_start [104, 105, 10])) 3
      (by decide) (by decide) (fun _ => rfl)⟩


/-! ## Shutdown (C7) and the subscription flags (C8) -/

theorem resolved_cons (c : gattlib_characteristic_t) (cs : List gattlib_characteristic_t)
    (u d : Nat) :
    resolved (c :: cs) u d = resolved cs u (if c.uuid = u then c.value_handle else d) := by
  unfold resolved matching_entry matching
  by_cases hc : c.uuid = u
  · simp only [List.filter_cons, hc, decide_True, if_true, List.getLast?_cons]
    cases (List.filter (fun c => decide (c.uuid = u)) cs).getLast? <;> simp
  · simp [List.filter_cons, hc]

theorem resolved_nil (u d : Nat) : resolved [] u d = d := by
  simp [resolved, matching_entry, matching]

theorem nordic_scan_eq (tx rx : Nat) (hne : tx ≠ rx) :
    ∀ (cs : List gattlib_characteristic_t) (a b : Nat),
      nordic_uart.scan tx rx cs (a, b) = (resolved cs tx a, resolved cs rx b) := by
  intro cs
  induction cs with
  | nil => intro a b; simp [nordic_uart.scan, resolved_nil]
  | cons c cs ih =>
    intro a b
    rw [resolved_cons, resolved_cons]
    by_cases h1 : c.uuid = tx
    · have h2 : c.uuid ≠ rx := fun e => hne (h1.symm.trans e)
      simp only [nordic_uart.scan, h1, h2, if_true, if_false, ih]
      simp [hne]
    · by_cases h2 : c.uuid = rx
      · simp only [nordic_uart.scan, h1, h2, if_true, if_false, ih]
        simp [Ne.symm hne]
      · simp only [nordic_uart.scan, h1, h2, if_false, ih]

theorem trans_scan_eq (tx rx nx : Nat) (h1 : tx ≠ rx) (h2 : tx ≠ nx) (h3 : rx ≠ nx) :
    ∀ (cs : List gattlib_characteristic_t) (a b c : Nat),
      trans_uart.scan tx rx nx cs (a, b, c) =
        (resolved cs tx a, resolved cs rx b, resolved cs nx c) := by
  intro cs
  induction cs with
  | nil => intro a b c; simp [trans_uart.scan, resolved_nil]
  | cons e cs ih =>
    intro a b c
    rw [resolved_cons, resolved_cons, resolved_cons]
    by_cases e1 : e.uuid = tx
    · have e2 : e.uuid ≠ rx := fun h => h1 (e1.symm.trans h)
      have e3 : e.uuid ≠ nx := fun h => h2 (e1.symm.trans h)
      simp only [trans_uart.scan, e1, if_true, ih]
      simp [h1, h2]
    · by_cases e2 : e.uuid = rx
      · have e3 : e.uuid ≠ nx := fun h => h3 (e2.symm.trans h)
        simp only [trans_uart.scan, e1, e2, if_true, if_false, ih]
        simp [h3, Ne.symm h1]
      · by_cases e3 : e.uuid = nx
        · simp only [trans_uart.scan, e1, e2, e3, if_true, if_false, ih]
          simp [Ne.symm h2, Ne.symm h3]
        · simp only [trans_uart.scan, e1, e2, e3, if_false, ih]

/-- What `main` of `nordic_uart` has done once discovery has succeeded. -/
theorem nordic_main_scanned (env : nordic_uart.Env) (h1 : env.argc = 2)
    (h2 : env.connect = true) (h3 : env.tx_uuid_ret = 0) (h4 : env.rx_uuid_ret = 0)
    (h5 : env.discover_ret = 0) :
    nordic_uart.main env =
      if resolved env.characteristics nordic_uart.NUS_CHARACTERISTIC_TX_UUID 0 = 0 ∨
          resolved env.characteristics nordic_uart.NUS_CHARACTERISTIC_RX_UUID 0 = 0 then
        { ret := some 1
          globals :=
            { m_connection := true
              tx_handle := resolved env.characteristics nordic_uart.NUS_CHARACTERISTIC_TX_UUID 0
              rx_handle := resolved env.characteristics nordic_uart.NUS_CHARACTERISTIC_RX_UUID 0
              nus_characteristic_tx_uuid := nordic_uart.NUS_CHARACTERISTIC_TX_UUID
              nus_characteristic_rx_uuid := nordic_uart.NUS_CHARACTERISTIC_RX_UUID
              notify_started := 0 }
          trace := [Call.gattlib_connect, Call.gattlib_string_to_uuid UuidName.TX,
            Call.gattlib_string_to_uuid UuidName.RX, Call.gattlib_discover_char] }
      else
        { ret := none
          globals :=
            { m_connection := true
              tx_handle := resolved env.characteristics nordic_uart.NUS_CHARACTERISTIC_TX_UUID 0
              rx_handle := resolved env.characteristics nordic_uart.NUS_CHARACTERISTIC_RX_UUID 0
              nus_characteristic_tx_uuid := nordic_uart.NUS_CHARACTERISTIC_TX_UUID
              nus_characteristic_rx_uuid := nordic_uart.NUS_CHARACTERISTIC_RX_UUID
              notify_started := 1 }
          trace := [Call.gattlib_connect, Call.gattlib_string_to_uuid UuidName.TX,
            Call.gattlib_string_to_uuid UuidName.RX, Call.gattlib_discover_char,
            Call.free, Call.gattlib_register_notification Handler.notification_cb,
            Call.gattlib_notification_start nordic_uart.NUS_CHARACTERISTIC_RX_UUID,
            Call.signal, Call.g_main_loop_new, Call.pthread_create,
            Call.g_main_loop_run] } := by
  unfold nordic_uart.main
  simp only [h1, h2, h3, h4, h5, nordic_uart.Globals.init]
  rw [nordic_scan_eq _ _ (by decide)]
  generalize resolved env.characteristics nordic_uart.NUS_CHARACTERISTIC_TX_UUID 0 = a
  generalize resolved env.characteristics nordic_uart.NUS_CHARACTERISTIC_RX_UUID 0 = b
  by_cases ha : a = 0
  · simp [ha]
  · by_cases hb : b = 0
    · simp [ha, hb]
    · simp [ha, hb]

/-- What `main` of `trans_uart` has done once discovery has succeeded. -/
theorem trans_main_scanned (env : trans_uart.Env) (h1 : env.argc = 2)
    (h2 : env.connect = true) (h3 : env.tx_uuid_ret = 0) (h4 : env.rx_uuid_ret = 0)
    (h5 : env.nx_uuid_ret = 0) (h6 : env.discover_ret = 0) :
    trans_uart.main env =
      if resolved env.characteristics trans_uart.UART_CHARACTERISTIC_TX_UUID 0 = 0 ∨
          resolved env.characteristics trans_uart.UART_CHARACTERISTIC_RX_UUID 0 = 0 ∨
          resolved env.characteristics trans_uart.UART_CHARACTERISTIC_NX_UUID 0 = 0 then
        { ret := some 1
          globals :=
            { m_connection := true
              tx_handle := resolved env.characteristics trans_uart.UART_CHARACTERISTIC_TX_UUID 0
              rx_handle := resolved env.characteristics trans_uart.UART_CHARACTERISTIC_RX_UUID 0
              nx_handle := resolved env.characteristics trans_uart.UART_CHARACTERISTIC_NX_UUID 0
              uart_characteristic_tx_uuid := trans_uart.UART_CHARACTERISTIC_TX_UUID
              uart_characteristic_rx_uuid := trans_uart.UART_CHARACTERISTIC_RX_UUID
              uart_characteristic_nx_uuid := trans_uart.UART_CHARACTERISTIC_NX_UUID
              tx_notify_started := 0
              nx_notify_started := 0 }
          trace := [Call.gattlib_connect, Call.gattlib_string_to_uuid UuidName.TX,
            Call.gattlib_string_to_uuid UuidName.RX, Call.gattlib_string_to_uuid UuidName.NX,
            Call.gattlib_discover_char] }
      else
        { ret := none
          globals :=
            { m_connection := true
              tx_handle := resolved env.characteristics trans_uart.UART_CHARACTERISTIC_TX_UUID 0
              rx_handle := resolved env.characteristics trans_uart.UART_CHARACTERISTIC_RX_UUID 0
              nx_handle := resolved env.characteristics trans_uart.UART_CHARACTERISTIC_NX_UUID 0
              uart_characteristic_tx_uuid := trans_uart.UART_CHARACTERISTIC_TX_UUID
              uart_characteristic_rx_uuid := trans_uart.UART_CHARACTERISTIC_RX_UUID
              uart_characteristic_nx_uuid := trans_uart.UART_CHARACTERISTIC_NX_UUID
              tx_notify_started := if env.tx_notification_start_ret ≠ 0 then 0 else 1
              nx_notify_started := if env.nx_notification_start_ret ≠ 0 then 0 else 1 }
          trace := [Call.gattlib_connect, Call.gattlib_string_to_uuid UuidName.TX,
            Call.gattlib_string_to_uuid UuidName.RX, Call.gattlib_string_to_uuid UuidName.NX,
            Call.gattlib_discover_char, Call.free,
            Call.gattlib_register_notification Handler.tx_notification_cb,
            Call.gattlib_notification_start trans_uart.UART_CHARACTERISTIC_TX_UUID,
            Call.gattlib_register_notification Handler.nx_notification_cb,
            Call.gattlib_notification_start trans_uart.UART_CHARACTERISTIC_NX_UUID,
            Call.signal, Call.g_main_loop_new, Call.pthread_create,
            Call.g_main_loop_run] } := by
  unfold trans_uart.main
  simp only [h1, h2, h3, h4, h5, h6, trans_uart.Globals.init]
  rw [trans_scan_eq _ _ _ (by decide) (by decide) (by decide)]
  generalize resolved env.characteristics trans_uart.UART_CHARACTERISTIC_TX_UUID 0 = a
  generalize resolved env.characteristics trans_uart.UART_CHARACTERISTIC_RX_UUID 0 = b
  generalize resolved env.characteristics trans_uart.UART_CHARACTERISTIC_NX_UUID 0 = c
  by_cases ha : a = 0
  · simp [ha]
  · by_cases hb : b = 0
    · simp [ha, hb]
    · by_cases hc : c = 0
      · simp [ha, hb, hc]
      · by_cases ht : env.tx_notification_start_ret = 0 <;>
          by_cases hn : env.nx_notification_start_ret = 0 <;>
          simp [ha, hb, hc, ht, hn]

/-- When `main` of `nordic_uart` reaches the main loop, every call before
succeeded. -/
theorem nordic_main_run (env : nordic_uart.Env) (hrun : (nordic_uart.main env).ret = none) :
    env.argc = 2 ∧ env.connect = true ∧ env.tx_uuid_ret = 0 ∧ env.rx_uuid_ret = 0 ∧
    env.discover_ret = 0 := by
  unfold nordic_uart.main at hrun
  by_cases h1 : env.argc = 2
  · by_cases h2 : env.connect = true
    · by_cases h3 : env.tx_uuid_ret = 0
      · by_cases h4 : env.rx_uuid_ret = 0
        · by_cases h5 : env.discover_ret = 0
          · exact ⟨h1, h2, h3, h4, h5⟩
          · simp [h1, h2, h3, h4, h5] at hrun
        · simp [h1, h2, h3, h4] at hrun
      · simp [h1, h2, h3] at hrun
    · simp [h1, h2] at hrun
  · simp [h1] at hrun

/-- When `main` of `trans_uart` reaches the main loop, every call before
succeeded. -/
theorem trans_main_run (env : trans_uart.Env) (hrun : (trans_uart.main env).ret = none) :
    env.argc = 2 ∧ env.connect = true ∧ env.tx_uuid_ret = 0 ∧ env.rx_uuid_ret = 0 ∧
    env.nx_uuid_ret = 0 ∧ env.discover_ret = 0 := by
  unfold trans_uart.main at hrun
  by_cases h1 : env.argc = 2
  · by_cases h2 : env.connect = true
    · by_cases h3 : env.tx_uuid_ret = 0
      · by_cases h4 : env.rx_uuid_ret = 0
        · by_cases h5 : env.nx_uuid_ret = 0
          · by_cases h6 : env.discover_ret = 0
            · exact ⟨h1, h2, h3, h4, h5, h6⟩
            · simp [h1, h2, h3, h4, h5, h6] at hrun
          · simp [h1, h2, h3, h4, h5] at hrun
        · simp [h1, h2, h3, h4] at hrun
      · simp [h1, h2, h3] at hrun
    · simp [h1, h2] at hrun
  · simp [h1] at hrun

/-- In `trans_uart`, a subscription whose start call fails keeps its flag at
0 and startup goes on; a flag is 1 exactly when its start call returned 0, and
`int_handler` issues no stop call for a subscription whose start failed. -/
theorem trans_uart_start_flags (env : trans_uart.Env)
    (hrun : (trans_uart.main env).ret = none) :
    ((trans_uart.main env).globals.tx_notify_started =
      if env.tx_notification_start_ret ≠ 0 then 0 else 1) ∧
    ((trans_uart.main env).globals.nx_notify_started =
      if env.nx_notification_start_ret ≠ 0 then 0 else 1) ∧
    (env.tx_notification_start_ret ≠ 0 →
      Call.gattlib_notification_stop trans_uart.UART_CHARACTERISTIC_TX_UUID ∉
        (trans_uart.int_handler (trans_uart.main env).globals).2) ∧
    (env.nx_notification_start_ret ≠ 0 →
      Call.gattlib_notification_stop trans_uart.UART_CHARACTERISTIC_NX_UUID ∉
        (trans_uart.int_handler (trans_uart.main env).globals).2) := by
  obtain ⟨h1, h2, h3, h4, h5, h6⟩ := trans_main_run env hrun
  have hm := trans_main_scanned env h1 h2 h3 h4 h5 h6
  rw [hm] at hrun ⊢
  have hne : trans_uart.UART_CHARACTERISTIC_TX_UUID ≠ trans_uart.UART_CHARACTERISTIC_NX_UUID := by
    decide
  by_cases hc : resolved env.characteristics trans_uart.UART_CHARACTERISTIC_TX_UUID 0 = 0 ∨
      resolved env.characteristics trans_uart.UART_CHARACTERISTIC_RX_UUID 0 = 0 ∨
      resolved env.characteristics trans_uart.UART_CHARACTERISTIC_NX_UUID 0 = 0
  · rw [if_pos hc] at hrun
    simp at hrun
  rw [if_neg hc]
  refine ⟨rfl, rfl, ?_, ?_⟩
  · intro ht
    by_cases hn : env.nx_notification_start_ret = 0
    · simp [trans_uart.int_handler, ht, hn, hne]
    · simp [trans_uart.int_handler, ht, hn]
  · intro hn
    by_cases ht : env.tx_notification_start_ret = 0
    · simp [trans_uart.int_handler, ht, hn, Ne.symm hne]
    · simp [trans_uart.int_handler, ht, hn]

/-- C8, the code of `nordic_uart` at the failing input: every startup call
succeeds except `gattlib_notification_start`, which returns 1. Startup goes
on, but `notify_started` is set to 1 all the same, and `int_handler` then
issues a stop call for the subscription whose start failed. -/
theorem C8_nordic_flag_set_on_failure :
    (nordic_uart.main { nordic_uart.env_ok with notification_start_ret := 1 }).ret = none ∧
    (nordic_uart.main
      { nordic_uart.env_ok with notification_start_ret := 1 }).globals.notify_started = 1 ∧
    Call.gattlib_notification_stop nordic_uart.NUS_CHARACTERISTIC_RX_UUID ∈
      (nordic_uart.int_handler
        (nordic_uart.main
          { nordic_uart.env_ok with notification_start_ret := 1 }).globals).2 := by
  decide


theorem resolved_of_unresolved (cs : List gattlib_characteristic_t) (u : Nat)
    (h : unresolved cs u) : resolved cs u 0 = 0 := by
  unfold resolved
  rcases h with h | ⟨e, he, h0⟩
  · rw [h]
  · rw [he]; exact h0

theorem resolved_of_matching (cs : List gattlib_characteristic_t) (u d : Nat)
    (e : gattlib_characteristic_t) (h : matching_entry cs u = some e) :
    resolved cs u d = e.value_handle := by
  unfold resolved
  rw [h]

/-- C9: in both programs, once discovery has succeeded: when the discovered
list has no entry for one of the required UUIDs (TX or RX in `nordic_uart`;
TX, RX or NX in `trans_uart`), or the matching entry of one of them has handle
value 0, `main` returns 1 having made only the connect, UUID-conversion and
discovery calls, so no notification-register call, no notification-start call
and no start of `send_thread`, which alone issues the writes; when every
required UUID has a matching entry with a non-zero handle, startup goes on and
each resolved handle is the `value_handle` of the matching entry. Where a
list holds several entries with one UUID, the matching entry is the last of
them. -/
theorem C9_resolution (envN : nordic_uart.Env) (envT : trans_uart.Env) :
    (envN.argc = 2 → envN.connect = true → envN.tx_uuid_ret = 0 →
      envN.rx_uuid_ret = 0 → envN.discover_ret = 0 →
      ((unresolved envN.characteristics nordic_uart.NUS_CHARACTERISTIC_TX_UUID ∨
          unresolved envN.characteristics nordic_uart.NUS_CHARACTERISTIC_RX_UUID) →
        (nordic_uart.main envN).ret = some 1 ∧
        (nordic_uart.main envN).trace =
          [Call.gattlib_connect, Call.gattlib_string_to_uuid UuidName.TX,
           Call.gattlib_string_to_uuid UuidName.RX, Call.gattlib_discover_char] ∧
        ∀ c ∈ (nordic_uart.main envN).trace,
          c.is_register = false ∧ c.is_start = false ∧ c.is_write = false ∧
          c ≠ Call.pthread_create) ∧
      (∀ e_tx e_rx,
        matching_entry envN.characteristics nordic_uart.NUS_CHARACTERISTIC_TX_UUID =
          some e_tx → e_tx.value_handle ≠ 0 →
        matching_entry envN.characteristics nordic_uart.NUS_CHARACTERISTIC_RX_UUID =
          some e_rx → e_rx.value_handle ≠ 0 →
        (nordic_uart.main envN).ret = none ∧
        (nordic_uart.main envN).globals.tx_handle = e_tx.value_handle ∧
        (nordic_uart.main envN).globals.rx_handle = e_rx.value_handle)) ∧
    (envT.argc = 2 → envT.connect = true → envT.tx_uuid_ret = 0 →
      envT.rx_uuid_ret = 0 → envT.nx_uuid_ret = 0 → envT.discover_ret = 0 →
      ((unresolved envT.characteristics trans_uart.UART_CHARACTERISTIC_TX_UUID ∨
          unresolved envT.characteristics trans_uart.UART_CHARACTERISTIC_RX_UUID ∨
          unresolved envT.characteristics trans_uart.UART_CHARACTERISTIC_NX_UUID) →
        (trans_uart.main envT).ret = some 1 ∧
        (trans_uart.main envT).trace =
          [Call.gattlib_connect, Call.gattlib_string_to_uuid UuidName.TX,
           Call.gattlib_string_to_uuid UuidName.RX,
           Call.gattlib_string_to_uuid UuidName.NX, Call.gattlib_discover_char] ∧
        ∀ c ∈ (trans_uart.main envT).trace,
          c.is_register = false ∧ c.is_start = false ∧ c.is_write = false ∧
          c ≠ Call.pthread_create) ∧
      (∀ e_tx e_rx e_nx,
        matching_entry envT.characteristics trans_uart.UART_CHARACTERISTIC_TX_UUID =
          some e_tx → e_tx.value_handle ≠ 0 →
        matching_entry envT.characteristics trans_uart.UART_CHARACTERISTIC_RX_UUID =
          some e_rx → e_rx.value_handle ≠ 0 →
        matching_entry envT.characteristics trans_uart.UART_CHARACTERISTIC_NX_UUID =
          some e_nx → e_nx.value_handle ≠ 0 →
        (trans_uart.main envT).ret = none ∧
        (trans_uart.main envT).globals.tx_handle = e_tx.value_handle ∧
        (trans_uart.main envT).globals.rx_handle = e_rx.value_handle ∧
        (trans_uart.main envT).globals.nx_handle = e_nx.value_handle)) := by
  constructor
  · intro h1 h2 h3 h4 h5
    have hm := nordic_main_scanned envN h1 h2 h3 h4 h5
    constructor
    · intro hun
      have hc : resolved envN.characteristics nordic_uart.NUS_CHARACTERISTIC_TX_UUID 0 = 0 ∨
          resolved envN.characteristics nordic_uart.NUS_CHARACTERISTIC_RX_UUID 0 = 0 :=
        hun.imp (resolved_of_unresolved _ _) (resolved_of_unresolved _ _)
      rw [hm, if_pos hc]
      refine ⟨rfl, rfl, ?_⟩
      intro c hcm
      simp only [List.mem_cons, List.mem_singleton, List.not_mem_nil, or_false] at hcm
      rcases hcm with rfl | rfl | rfl | rfl <;>
        simp [Call.is_register, Call.is_start, Call.is_write]
    · intro e_tx e_rx ht ht0 hr hr0
      have rt := resolved_of_matching _ _ 0 _ ht
      have rr := resolved_of_matching _ _ 0 _ hr
      have hc : ¬(resolved envN.characteristics nordic_uart.NUS_CHARACTERISTIC_TX_UUID 0 = 0 ∨
          resolved envN.characteristics nordic_uart.NUS_CHARACTERISTIC_RX_UUID 0 = 0) := by
        rw [rt, rr]
        exact fun h => h.elim ht0 hr0
      rw [hm, if_neg hc]
      exact ⟨rfl, rt, rr⟩
  · intro h1 h2 h3 h4 h5 h6
    have hm := trans_main_scanned envT h1 h2 h3 h4 h5 h6
    constructor
    · intro hun
      have hc : resolved envT.characteristics trans_uart.UART_CHARACTERISTIC_TX_UUID 0 = 0 ∨
          resolved envT.characteristics trans_uart.UART_CHARACTERISTIC_RX_UUID 0 = 0 ∨
          resolved envT.characteristics trans_uart.UART_CHARACTERISTIC_NX_UUID 0 = 0 :=
        hun.imp (resolved_of_unresolved _ _)
          (fun h => h.imp (resolved_of_unresolved _ _) (resolved_of_unresolved _ _))
      rw [hm, if_pos hc]
      refine ⟨rfl, rfl, ?_⟩
      intro c hcm
      simp only [List.mem_cons, List.mem_singleton, List.not_mem_nil, or_false] at hcm
      rcases hcm with rfl | rfl | rfl | rfl | rfl <;>
        simp [Call.is_register, Call.is_start, Call.is_write]
    · intro e_tx e_rx e_nx ht ht0 hr hr0 hn hn0
      have rt := resolved_of_matching _ _ 0 _ ht
      have rr := resolved_of_matching _ _ 0 _ hr
      have rn := resolved_of_matching _ _ 0 _ hn
      have hc : ¬(resolved envT.characteristics trans_uart.UART_CHARACTERISTIC_TX_UUID 0 = 0 ∨
          resolved envT.characteristics trans_uart.UART_CHARACTERISTIC_RX_UUID 0 = 0 ∨
          resolved envT.characteristics trans_uart.UART_CHARACTERISTIC_NX_UUID 0 = 0) := by
        rw [rt, rr, rn]
        exact fun h => h.elim ht0 (fun h => h.elim hr0 hn0)
      rw [hm, if_neg hc]
      exact ⟨rfl, rt, rr, rn⟩


/-- Witness of C9: in `nordic_uart` a list without the TX characteristic and a
list with both characteristics; in `trans_uart` a list whose NX entry has
handle value 0 and a list with all three characteristics. -/
theorem C9_resolution_witness :
    ((nordic_uart.main nordic_uart.env_no_tx).ret = some 1 ∧
      (nordic_uart.main nordic_uart.env_no_tx).trace =
        [Call.gattlib_connect, Call.gattlib_string_to_uuid UuidName.TX,
         Call.gattlib_string_to_uuid UuidName.RX, Call.gattlib_discover_char] ∧
      ∀ c ∈ (nordic_uart.main nordic_uart.env_no_tx).trace,
        c.is_register = false ∧ c.is_start = false ∧ c.is_write = false ∧
          c ≠ Call.pthread_create) ∧
    ((nordic_uart.main nordic_uart.env_ok).ret = none ∧
      (nordic_uart.main nordic_uart.env_ok).globals.tx_handle = 11 ∧
      (nordic_uart.main nordic_uart.env_ok).globals.rx_handle = 12) ∧
    ((trans_uart.main trans_uart.env_nx_zero).ret = some 1 ∧
      (trans_uart.main trans_uart.env_nx_zero).trace =
        [Call.gattlib_connect, Call.gattlib_string_to_uuid UuidName.TX,
         Call.gattlib_string_to_uuid UuidName.RX,
         Call.gattlib_string_to_uuid UuidName.NX, Call.gattlib_discover_char] ∧
      ∀ c ∈ (trans_uart.main trans_uart.env_nx_zero).trace,
        c.is_register = false ∧ c.is_start = false ∧ c.is_write = false ∧
          c ≠ Call.pthread_create) ∧
    ((trans_uart.main trans_uart.env_ok).ret = none ∧
      (trans_uart.main trans_uart.env_ok).globals.tx_handle = 11 ∧
      (trans_uart.main trans_uart.env_ok).globals.rx_handle = 12 ∧
      (trans_uart.main trans_uart.env_ok).globals.nx_handle = 13) :=
  ⟨((C9_resolution nordic_uart.env_no_tx trans_uart.env_nx_zero).1
      rfl rfl rfl rfl rfl).1 (Or.inl (Or.inl (by decide))),
    ((C9_resolution nordic_uart.env_ok trans_uart.env_ok).1 rfl rfl rfl rfl rfl).2
      { uuid := nordic_uart.NUS_CHARACTERISTIC_TX_UUID, value_handle := 11 }
      { uuid := nordic_uart.NUS_CHARACTERISTIC_RX_UUID, value_handle := 12 }
      (by decide) (by decide) (by decide) (by decide),
    ((C9_resolution nordic_uart.env_no_tx trans_uart.env_nx_zero).2
      rfl rfl rfl rfl rfl rfl).1
      (Or.inr (Or.inr (Or.inr
        ⟨{ uuid := trans_uart.UART_CHARACTERISTIC_NX_UUID, value_handle := 0 },
          by decide, rfl⟩))),
    ((C9_resolution nordic_uart.env_ok trans_uart.env_ok).2 rfl rfl rfl rfl rfl rfl).2
      { uuid := trans_uart.UART_CHARACTERISTIC_TX_UUID, value_handle := 11 }
      { uuid := trans_uart.UART_CHARACTERISTIC_RX_UUID, value_handle := 12 }
      { uuid := trans_uart.UART_CHARACTERISTIC_NX_UUID, value_handle := 13 }
      (by decide) (by decide) (by decide) (by decide) (by decide) (by decide)⟩

/-- C10, the claim as stated fails: in `nordic_uart`, when the connect call
succeeded and the conversion of the TX UUID string fails, `main` returns 1
having made the connect call and the conversion call and no disconnect
call. -/
theorem C10_counterexample :
    (nordic_uart.main { nordic_uart.env_ok with tx_uuid_ret := 1 }).ret = some 1 ∧
    (nordic_uart.main { nordic_uart.env_ok with tx_uuid_ret := 1 }).globals.m_connection
      = true ∧
    (nordic_uart.main { nordic_uart.env_ok with tx_uuid_ret := 1 }).trace =
      [Call.gattlib_connect, Call.gattlib_string_to_uuid UuidName.TX] ∧
    Call.gattlib_disconnect ∉
      (nordic_uart.main { nordic_uart.env_ok with tx_uuid_ret := 1 }).trace := by
  decide

theorem nordic_main_fatal (env : nordic_uart.Env) (h1 : env.argc = 2)
    (h2 : env.connect = true) (hret : (nordic_uart.main env).ret = some 1) :
    (nordic_uart.main env).globals.m_connection = true ∧
    (nordic_uart.main env).globals.notify_started = 0 ∧
    ∀ c ∈ (nordic_uart.main env).trace,
      c ≠ Call.gattlib_disconnect ∧ c.is_start = false ∧ c.is_stop = false := by
  by_cases h3 : env.tx_uuid_ret = 0
  · by_cases h4 : env.rx_uuid_ret = 0
    · by_cases h5 : env.discover_ret = 0
      · have hm := nordic_main_scanned env h1 h2 h3 h4 h5
        rw [hm] at hret ⊢
        by_cases hc : resolved env.characteristics nordic_uart.NUS_CHARACTERISTIC_TX_UUID 0 = 0 ∨
            resolved env.characteristics nordic_uart.NUS_CHARACTERISTIC_RX_UUID 0 = 0
        · rw [if_pos hc]
          simp [Call.is_start, Call.is_stop]
        · rw [if_neg hc] at hret
          simp at hret
      · simp [nordic_uart.main, nordic_uart.Globals.init, h1, h2, h3, h4, h5,
          Call.is_start, Call.is_stop]
    · simp [nordic_uart.main, nordic_uart.Globals.init, h1, h2, h3, h4,
        Call.is_start, Call.is_stop]
  · simp [nordic_uart.main, nordic_uart.Globals.init, h1, h2, h3,
      Call.is_start, Call.is_stop]

theorem trans_main_fatal (env : trans_uart.Env) (h1 : env.argc = 2)
    (h2 : env.connect = true) (hret : (trans_uart.main env).ret = some 1) :
    (trans_uart.main env).globals.m_connection = true ∧
    (trans_uart.main env).globals.tx_notify_started = 0 ∧
    (trans_uart.main env).globals.nx_notify_started = 0 ∧
    ∀ c ∈ (trans_uart.main env).trace,
      c ≠ Call.gattlib_disconnect ∧ c.is_start = false ∧ c.is_stop = false := by
  by_cases h3 : env.tx_uuid_ret = 0
  · by_cases h4 : env.rx_uuid_ret = 0
    · by_cases h5 : env.nx_uuid_ret = 0
      · by_cases h6 : env.discover_ret = 0
        · have hm := trans_main_scanned env h1 h2 h3 h4 h5 h6
          rw [hm] at hret ⊢
          by_cases hc :
              resolved env.characteristics trans_uart.UART_CHARACTERISTIC_TX_UUID 0 = 0 ∨
              resolved env.characteristics trans_uart.UART_CHARACTERISTIC_RX_UUID 0 = 0 ∨
              resolved env.characteristics trans_uart.UART_CHARACTERISTIC_NX_UUID 0 = 0
          · rw [if_pos hc]
            simp [Call.is_start, Call.is_stop]
          · rw [if_neg hc] at hret
            simp at hret
        · simp [trans_uart.main, trans_uart.Globals.init, h1, h2, h3, h4, h5, h6,
            Call.is_start, Call.is_stop]
      · simp [trans_uart.main, trans_uart.Globals.init, h1, h2, h3, h4, h5,
          Call.is_start, Call.is_stop]
    · simp [trans_uart.main, trans_uart.Globals.init, h1, h2, h3, h4,
        Call.is_start, Call.is_stop]
  · simp [trans_uart.main, trans_uart.Globals.init, h1, h2, h3,
      Call.is_start, Call.is_stop]

/-- C10 as amended: on every startup path of `main`, in both programs, that
fails fatally after the connect call succeeded (UUID parse failure, discovery
failure, missing required characteristic), `main` returns 1 with the
connection still held and without any disconnect call: the sequence of
external calls made before `main` returns 1 contains no disconnect call; no
subscription is active on return: no notification-start call was made and the
subscription flags are 0. -/
theorem C10_fatal_paths (envN : nordic_uart.Env) (envT : trans_uart.Env) :
    (envN.argc = 2 → envN.connect = true → (nordic_uart.main envN).ret = some 1 →
      (nordic_uart.main envN).globals.m_connection = true ∧
      (nordic_uart.main envN).globals.notify_started = 0 ∧
      ∀ c ∈ (nordic_uart.main envN).trace,
        c ≠ Call.gattlib_disconnect ∧ c.is_start = false ∧ c.is_stop = false) ∧
    (envT.argc = 2 → envT.connect = true → (trans_uart.main envT).ret = some 1 →
      (trans_uart.main envT).globals.m_connection = true ∧
      (trans_uart.main envT).globals.tx_notify_started = 0 ∧
      (trans_uart.main envT).globals.nx_notify_started = 0 ∧
      ∀ c ∈ (trans_uart.main envT).trace,
        c ≠ Call.gattlib_disconnect ∧ c.is_start = false ∧ c.is_stop = false) :=
  ⟨nordic_main_fatal envN, trans_main_fatal envT⟩

/-- Witness of C10 as amended: a failed conversion of the TX UUID string in
`nordic_uart`, a zero NX handle in `trans_uart`. -/
theorem C10_fatal_paths_witness :
    ((nordic_uart.main { nordic_uart.env_ok with tx_uuid_ret := 1 }).ret = some 1 ∧
      (nordic_uart.main { nordic_uart.env_ok with tx_uuid_ret := 1 }).globals.m_connection
        = true ∧
      (nordic_uart.main { nordic_uart.env_ok with tx_uuid_ret := 1 }).globals.notify_started
        = 0 ∧
      ∀ c ∈ (nordic_uart.main { nordic_uart.env_ok with tx_uuid_ret := 1 }).trace,
        c ≠ Call.gattlib_disconnect ∧ c.is_start = false ∧ c.is_stop = false) ∧
    ((trans_uart.main trans_uart.env_nx_zero).ret = some 1 ∧
      (trans_uart.main trans_uart.env_nx_zero).globals.m_connection = true ∧
      (trans_uart.main trans_uart.env_nx_zero).globals.tx_notify_started = 0 ∧
      (trans_uart.main trans_uart.env_nx_zero).globals.nx_notify_started = 0 ∧
      ∀ c ∈ (trans_uart.main trans_uart.env_nx_zero).trace,
        c ≠ Call.gattlib_disconnect ∧ c.is_start = false ∧ c.is_stop = false) :=
  ⟨⟨by decide,
      (C10_fatal_paths { nordic_uart.env_ok with tx_uuid_ret := 1 }
        trans_uart.env_nx_zero).1 rfl rfl (by decide)⟩,
    ⟨by decide,
      (C10_fatal_paths { nordic_uart.env_ok with tx_uuid_ret := 1 }
        trans_uart.env_nx_zero).2 rfl rfl (by decide)⟩⟩


end Gattlib
